import Mathlib

/-!
# Ledger engine embedding

Shallow embedding of the ledger engine of the `backend` repository:

* the voucher template engine (`voucherTemplateEngine.ts`),
* the draft lifecycle (`createDraftVoucher.ts`, `updateDraftVoucher.ts`,
  `deleteDraftVoucher.ts`),
* the posting transaction (`postVoucher.ts`),
* the account-book report helper (`api/routes/reports.ts`).

Monetary amounts are modelled as exact rationals (`ℚ`), matching the
spec's "exact decimal values" reading of the JavaScript numbers; dates
and timestamps are integers (milliseconds).  Database access through
Prisma is modelled by an explicit record of table contents (`DB`), and
the `prisma.$transaction` rollback-on-throw semantics by `run...`
wrappers that return the original state on error.
-/

namespace Backend

/-- JavaScript `Math.abs` on exact rationals. -/
def ratAbs (q : ℚ) : ℚ := if q < 0 then -q else q

/-- The balance tolerance `0.001` appearing in the source. -/
def epsilon : ℚ := 1 / 1000

/-- `EntrySide` union type (`"DEBIT" | "CREDIT"`). -/
inductive EntrySide where
  | DEBIT
  | CREDIT
deriving DecidableEq

/-- `GeneratedEntry` of the template engine. -/
structure GeneratedEntry where
  accountId : String
  side : EntrySide
  amount : ℚ
deriving DecidableEq

/-- The resolved control accounts passed to the template engine
(`VoucherTemplateInput.accounts`). -/
structure TemplateAccounts where
  salesAccountId : String
  purchaseExpenseAccountId : String
  accountsReceivableId : String
  accountsPayableId : String
  ownerCapitalId : String
  cashAccountId : String
  bankAccountId : String
deriving DecidableEq

/-- The source's `VoucherType` union type for templates
(`"SALE" | "PURCHASE" | "RECEIPT" | "PAYMENT" | "CONTRA" | "JOURNAL"`);
named `VoucherKind` here to keep it apart from the `VoucherType`
database table. -/
inductive VoucherKind where
  | SALE
  | PURCHASE
  | RECEIPT
  | PAYMENT
  | CONTRA
  | JOURNAL
deriving DecidableEq

/-- `VoucherTemplateInput` of the template engine. -/
structure VoucherTemplateInput where
  voucherType : VoucherKind
  subType : String
  totalAmount : ℚ
  paymentAccountId : Option String := none
  expenseAccountId : Option String := none
  journalEntries : Option (List GeneratedEntry) := none
  accounts : TemplateAccounts
deriving DecidableEq

/-- The distinct `throw new Error(...)` sites of the template engine;
the spec groups all of them under `InvalidTemplateInputError`. -/
inductive TemplateError where
  | paymentAccountIdRequired
  | expenseAccountIdRequired
  | journalNeedsTwoEntries
  | journalUnbalanced
  | unsupportedSubType
deriving DecidableEq

/-- JavaScript truthiness of an optional string parameter:
`undefined`, `null` and `""` are all falsy (`if (!input.x)`). -/
def jsPresent : Option String → Bool
  | none => false
  | some s => !s.isEmpty

/-- Σ of the `DEBIT` amounts of a generated entry list
(`entries.filter(e => e.side === "DEBIT").reduce((s, e) => s + e.amount, 0)`). -/
def debitTotal (entries : List GeneratedEntry) : ℚ :=
  ((entries.filter (fun e => e.side == .DEBIT)).map (fun e => e.amount)).sum

/-- Σ of the `CREDIT` amounts of a generated entry list. -/
def creditTotal (entries : List GeneratedEntry) : ℚ :=
  ((entries.filter (fun e => e.side == .CREDIT)).map (fun e => e.amount)).sum

/-- `saleTemplate`: CASH_SALE → payment DR / sales CR,
CREDIT_SALE → AR DR / sales CR. -/
def saleTemplate (input : VoucherTemplateInput) : Except TemplateError (List GeneratedEntry) :=
  if input.subType = "CASH_SALE" then
    if !jsPresent input.paymentAccountId then .error .paymentAccountIdRequired
    else .ok [⟨input.paymentAccountId.getD (""), .DEBIT, input.totalAmount⟩,
              ⟨input.accounts.salesAccountId, .CREDIT, input.totalAmount⟩]
  else if input.subType = "CREDIT_SALE" then
    .ok [⟨input.accounts.accountsReceivableId, .DEBIT, input.totalAmount⟩,
         ⟨input.accounts.salesAccountId, .CREDIT, input.totalAmount⟩]
  else .error .unsupportedSubType

/-- `purchaseTemplate`: CASH_PURCHASE → purchase DR / payment CR,
CREDIT_PURCHASE → purchase DR / AP CR. -/
def purchaseTemplate (input : VoucherTemplateInput) : Except TemplateError (List GeneratedEntry) :=
  if input.subType = "CASH_PURCHASE" then
    if !jsPresent input.paymentAccountId then .error .paymentAccountIdRequired
    else .ok [⟨input.accounts.purchaseExpenseAccountId, .DEBIT, input.totalAmount⟩,
              ⟨input.paymentAccountId.getD (""), .CREDIT, input.totalAmount⟩]
  else if input.subType = "CREDIT_PURCHASE" then
    .ok [⟨input.accounts.purchaseExpenseAccountId, .DEBIT, input.totalAmount⟩,
         ⟨input.accounts.accountsPayableId, .CREDIT, input.totalAmount⟩]
  else .error .unsupportedSubType

/-- `receiptTemplate`: payment DR / AR CR (sub-kind ignored). -/
def receiptTemplate (input : VoucherTemplateInput) : Except TemplateError (List GeneratedEntry) :=
  if !jsPresent input.paymentAccountId then .error .paymentAccountIdRequired
  else .ok [⟨input.paymentAccountId.getD (""), .DEBIT, input.totalAmount⟩,
            ⟨input.accounts.accountsReceivableId, .CREDIT, input.totalAmount⟩]

/-- `paymentTemplate`: the payment account is required for every
sub-kind; VENDOR_PAYMENT → AP DR, EXPENSE_PAYMENT → caller-supplied
expense account DR, OWNER_WITHDRAWAL → owner capital DR; always the
payment account CR. -/
def paymentTemplate (input : VoucherTemplateInput) : Except TemplateError (List GeneratedEntry) :=
  if !jsPresent input.paymentAccountId then .error .paymentAccountIdRequired
  else if input.subType = "VENDOR_PAYMENT" then
    .ok [⟨input.accounts.accountsPayableId, .DEBIT, input.totalAmount⟩,
         ⟨input.paymentAccountId.getD (""), .CREDIT, input.totalAmount⟩]
  else if input.subType = "EXPENSE_PAYMENT" then
    if !jsPresent input.expenseAccountId then .error .expenseAccountIdRequired
    else .ok [⟨input.expenseAccountId.getD (""), .DEBIT, input.totalAmount⟩,
              ⟨input.paymentAccountId.getD (""), .CREDIT, input.totalAmount⟩]
  else if input.subType = "OWNER_WITHDRAWAL" then
    .ok [⟨input.accounts.ownerCapitalId, .DEBIT, input.totalAmount⟩,
         ⟨input.paymentAccountId.getD (""), .CREDIT, input.totalAmount⟩]
  else .error .unsupportedSubType

/-- `contraTemplate`: CASH_TO_BANK → bank DR / cash CR,
BANK_TO_CASH → cash DR / bank CR. -/
def contraTemplate (input : VoucherTemplateInput) : Except TemplateError (List GeneratedEntry) :=
  if input.subType = "CASH_TO_BANK" then
    .ok [⟨input.accounts.bankAccountId, .DEBIT, input.totalAmount⟩,
         ⟨input.accounts.cashAccountId, .CREDIT, input.totalAmount⟩]
  else if input.subType = "BANK_TO_CASH" then
    .ok [⟨input.accounts.cashAccountId, .DEBIT, input.totalAmount⟩,
         ⟨input.accounts.bankAccountId, .CREDIT, input.totalAmount⟩]
  else .error .unsupportedSubType

/-- `journalTemplate`: at least two caller-supplied entries, balanced
within `0.001`, returned as-is. -/
def journalTemplate (input : VoucherTemplateInput) : Except TemplateError (List GeneratedEntry) :=
  match input.journalEntries with
  | none => .error .journalNeedsTwoEntries
  | some js =>
    if js.length < 2 then .error .journalNeedsTwoEntries
    else if epsilon < ratAbs (debitTotal js - creditTotal js) then .error .journalUnbalanced
    else .ok js

/-- `generateEntriesFromTemplate`: dispatch on the voucher kind.  The
`default` branch of the source's switch is unreachable because the
union type is closed, and has no counterpart here. -/
def generateEntriesFromTemplate (input : VoucherTemplateInput) :
    Except TemplateError (List GeneratedEntry) :=
  match input.voucherType with
  | .SALE => saleTemplate input
  | .PURCHASE => purchaseTemplate input
  | .RECEIPT => receiptTemplate input
  | .PAYMENT => paymentTemplate input
  | .CONTRA => contraTemplate input
  | .JOURNAL => journalTemplate input

/-- The error taxonomy of the engine's stateful operations.  The source
throws generic `Error`s with distinct messages; constructors here stand
for the distinct throw sites, and the spec's taxonomy groups
`atLeastTwoEntries`, `entryAmountNotPositive`, `debitCreditMismatch`
and `unbalancedTotals` under `UnbalancedEntriesError`,
`onlyDraftAllowed` under `InvalidStateError`, and `templateError`
under `InvalidTemplateInputError`. -/
inductive LedgerError where
  | voucherNotFound
  | accountNotFound
  | onlyDraftAllowed
  | atLeastTwoEntries
  | entryAmountNotPositive
  | debitCreditMismatch
  | unbalancedTotals
  | templateError (e : TemplateError)
deriving DecidableEq

/-- The spec's `UnbalancedEntriesError` groups the entry-count,
amount-sign and total-mismatch failures. -/
def IsUnbalancedEntriesError (e : LedgerError) : Prop :=
  e = .atLeastTwoEntries ∨ e = .entryAmountNotPositive ∨
    e = .debitCreditMismatch ∨ e = .unbalancedTotals

/-- Voucher status column (`DRAFT | POSTED | CANCELLED`). -/
inductive VoucherStatus where
  | DRAFT
  | POSTED
  | CANCELLED
deriving DecidableEq

/-- A row of the `Voucher` table. -/
structure Voucher where
  id : String
  companyId : String
  voucherTypeId : String
  status : VoucherStatus
  voucherDate : Int
  narration : Option String
  partyId : Option String
  subType : Option String
  voucherNumber : Option Int
  createdAt : Int
deriving DecidableEq

/-- A row of the `Entry` table. -/
structure EntryRow where
  voucherId : String
  accountId : String
  side : EntrySide
  amount : ℚ
deriving DecidableEq

/-- A row of the `Account` table (fields used by the reports). -/
structure Account where
  id : String
  companyId : String
  code : String
  name : String
  role : String
deriving DecidableEq

/-- The transactional store: the tables the engine reads and writes. -/
structure DB where
  accounts : List Account
  vouchers : List Voucher
  entries : List EntryRow
deriving DecidableEq

/-- `tx.voucher.findUnique({ where: { id } })`. -/
def findVoucherRow (db : DB) (voucherId : String) : Option Voucher :=
  db.vouchers.find? (fun v => v.id == voucherId)

/-- The `include: { entries: true }` relation of a voucher. -/
def voucherEntries (db : DB) (voucherId : String) : List EntryRow :=
  db.entries.filter (fun e => e.voucherId == voucherId)

/-- Σ of the `DEBIT` amounts of stored entry rows. -/
def rowDebitTotal (entries : List EntryRow) : ℚ :=
  ((entries.filter (fun e => e.side == .DEBIT)).map (fun e => e.amount)).sum

/-- Σ of the `CREDIT` amounts of stored entry rows. -/
def rowCreditTotal (entries : List EntryRow) : ℚ :=
  ((entries.filter (fun e => e.side == .CREDIT)).map (fun e => e.amount)).sum

/-- `CreateDraftVoucherInput`: template input plus header fields; the
route layer may omit `subType`. -/
structure CreateDraftVoucherInput where
  voucherType : VoucherKind
  subType : Option String
  totalAmount : ℚ
  paymentAccountId : Option String := none
  expenseAccountId : Option String := none
  journalEntries : Option (List GeneratedEntry) := none
  accounts : TemplateAccounts
  companyId : String
  voucherTypeId : String
  voucherDate : Int
  narration : Option String := none
  partyId : Option String := none
deriving DecidableEq

/-- The template-engine call made by `createDraftVoucher`
(`subType: input.subType ?? ""`). -/
def CreateDraftVoucherInput.templateArgs (input : CreateDraftVoucherInput) :
    VoucherTemplateInput :=
  { voucherType := input.voucherType
    subType := input.subType.getD ("")
    totalAmount := input.totalAmount
    paymentAccountId := input.paymentAccountId
    expenseAccountId := input.expenseAccountId
    journalEntries := input.journalEntries
    accounts := input.accounts }

/-- `tx.entry.create` data derived from one generated entry. -/
def GeneratedEntry.toRow (e : GeneratedEntry) (voucherId : String) : EntryRow :=
  { voucherId := voucherId
    accountId := e.accountId
    side := e.side
    amount := e.amount }

/-- The DRAFT header row persisted by `createDraftVoucher` (step 1 of
its transaction). -/
def newDraftVoucher (input : CreateDraftVoucherInput) (newVoucherId : String)
    (now : Int) : Voucher :=
  { id := newVoucherId
    companyId := input.companyId
    voucherTypeId := input.voucherTypeId
    status := .DRAFT
    voucherDate := input.voucherDate
    narration := input.narration
    partyId := input.partyId
    subType := input.subType
    voucherNumber := none
    createdAt := now }

/-- `createDraftVoucher`: create the DRAFT header, generate the entries
from the template, enforce `|Σdebit − Σcredit| ≤ 0.001`, persist the
entries; everything inside one transaction.  The database generates the
voucher's primary key and creation timestamp; they enter here as the
`newVoucherId` and `now` parameters. -/
def createDraftVoucher (db : DB) (input : CreateDraftVoucherInput)
    (newVoucherId : String) (now : Int) : Except LedgerError (DB × Voucher) :=
  let voucher : Voucher := newDraftVoucher input newVoucherId now
  match generateEntriesFromTemplate input.templateArgs with
  | .error e => .error (.templateError e)
  | .ok entries =>
    if epsilon < ratAbs (debitTotal entries - creditTotal entries) then
      .error .unbalancedTotals
    else
      .ok ({ db with
              vouchers := db.vouchers ++ [voucher]
              entries := db.entries ++ entries.map (fun e => e.toRow newVoucherId) },
           voucher)

/-- `UpdateDraftVoucherInput`: template input plus the editable header
fields. -/
structure UpdateDraftVoucherInput where
  voucherType : VoucherKind
  subType : String
  totalAmount : ℚ
  paymentAccountId : Option String := none
  expenseAccountId : Option String := none
  journalEntries : Option (List GeneratedEntry) := none
  accounts : TemplateAccounts
  voucherDate : Int
  narration : Option String := none
deriving DecidableEq

/-- The template-engine call made by `updateDraftVoucher` (the input is
passed through unchanged). -/
def UpdateDraftVoucherInput.templateArgs (input : UpdateDraftVoucherInput) :
    VoucherTemplateInput :=
  { voucherType := input.voucherType
    subType := input.subType
    totalAmount := input.totalAmount
    paymentAccountId := input.paymentAccountId
    expenseAccountId := input.expenseAccountId
    journalEntries := input.journalEntries
    accounts := input.accounts }

/-- Result record of `updateDraftVoucher`. -/
structure UpdateResult where
  voucherId : String
  status : VoucherStatus
deriving DecidableEq

/-- `updateDraftVoucher`: DRAFT only; destructive rebuild — delete all
entries, update the header, regenerate from the template, enforce
exact `Σdebit = Σcredit` (the update path has no epsilon), persist. -/
def updateDraftVoucher (db : DB) (voucherId : String) (input : UpdateDraftVoucherInput) :
    Except LedgerError (DB × UpdateResult) :=
  match findVoucherRow db voucherId with
  | none => .error .voucherNotFound
  | some voucher =>
    if voucher.status ≠ .DRAFT then .error .onlyDraftAllowed
    else
      let remainingEntries := db.entries.filter (fun e => !(e.voucherId == voucherId))
      let updatedVouchers := db.vouchers.map (fun v =>
        if v.id == voucherId then
          { v with voucherDate := input.voucherDate, narration := input.narration }
        else v)
      match generateEntriesFromTemplate input.templateArgs with
      | .error e => .error (.templateError e)
      | .ok generatedEntries =>
        if debitTotal generatedEntries ≠ creditTotal generatedEntries then
          .error .debitCreditMismatch
        else
          .ok ({ db with
                  vouchers := updatedVouchers
                  entries := remainingEntries ++ generatedEntries.map (fun e => e.toRow voucherId) },
               { voucherId := voucherId, status := .DRAFT })

/-- `deleteDraftVoucher`: DRAFT only; delete the entries, then the
header; returns `{ deleted: true }`. -/
def deleteDraftVoucher (db : DB) (voucherId : String) : Except LedgerError (DB × Bool) :=
  match findVoucherRow db voucherId with
  | none => .error .voucherNotFound
  | some voucher =>
    if voucher.status ≠ .DRAFT then .error .onlyDraftAllowed
    else
      .ok ({ db with
              vouchers := db.vouchers.filter (fun v => !(v.id == voucherId))
              entries := db.entries.filter (fun e => !(e.voucherId == voucherId)) },
           true)

/-- The entry validation loop of `postVoucher`: throws at the first
non-positive amount, otherwise accumulates the debit and credit
totals in order. -/
def sumEntrySides : List EntryRow → ℚ → ℚ → Except LedgerError (ℚ × ℚ)
  | [], debitTot, creditTot => .ok (debitTot, creditTot)
  | e :: rest, debitTot, creditTot =>
    if e.amount ≤ 0 then .error .entryAmountNotPositive
    else if e.side == .DEBIT then sumEntrySides rest (debitTot + e.amount) creditTot
    else sumEntrySides rest debitTot (creditTot + e.amount)

/-- Maximum of a list of integers, `none` on the empty list. -/
def listMaxInt : List Int → Option Int
  | [] => none
  | n :: rest =>
    match listMaxInt rest with
    | none => some n
    | some m => some (max n m)

/-- The `findFirst({ where: { companyId, voucherTypeId, status: POSTED },
orderBy: { voucherNumber: "desc" } })` query of `postVoucher`: the
largest voucher number among POSTED vouchers of the same company and
voucher type.  POSTED vouchers always carry a number (it is assigned at
posting and never cleared), so ordering of NULLs does not arise. -/
def lastPostedNumber (db : DB) (companyId voucherTypeId : String) : Option Int :=
  listMaxInt ((db.vouchers.filter (fun v =>
    v.companyId == companyId && v.voucherTypeId == voucherTypeId &&
      v.status == .POSTED)).filterMap (fun v => v.voucherNumber))

/-- Result record of `postVoucher`. -/
structure PostResult where
  voucherId : String
  voucherNumber : Int
  status : VoucherStatus
deriving DecidableEq

/-- The `tx.voucher.update` of `postVoucher`: mark the voucher POSTED
and set its assigned number (step 6). -/
def markPosted (db : DB) (voucherId : String) (nextVoucherNumber : Int) : DB :=
  { db with
      vouchers := db.vouchers.map (fun v =>
        if v.id == voucherId then
          { v with status := .POSTED, voucherNumber := some nextVoucherNumber }
        else v) }

/-- `postVoucher`: the DRAFT → POSTED transition.  Load the voucher and
its entries; require DRAFT; require at least two entries; validate every
amount is positive and the totals match exactly; assign the next
voucher number per (company, voucher type); mark POSTED. -/
def postVoucher (db : DB) (voucherId : String) : Except LedgerError (DB × PostResult) :=
  match findVoucherRow db voucherId with
  | none => .error .voucherNotFound
  | some voucher =>
    if voucher.status ≠ .DRAFT then .error .onlyDraftAllowed
    else
      let entries := voucherEntries db voucherId
      if entries.length < 2 then .error .atLeastTwoEntries
      else
        match sumEntrySides entries 0 0 with
        | .error e => .error e
        | .ok (debitTot, creditTot) =>
          if debitTot ≠ creditTot then .error .debitCreditMismatch
          else
            let nextVoucherNumber :=
              (lastPostedNumber db voucher.companyId voucher.voucherTypeId).getD 0 + 1
            .ok (markPosted db voucherId nextVoucherNumber,
                 { voucherId := voucherId
                   voucherNumber := nextVoucherNumber
                   status := .POSTED })

/-- `prisma.$transaction` semantics of `postVoucher`: on a throw the
whole unit rolls back and the store is unchanged. -/
def runPost (db : DB) (voucherId : String) : DB × Except LedgerError PostResult :=
  match postVoucher db voucherId with
  | .ok (db2, r) => (db2, .ok r)
  | .error e => (db, .error e)

/-- Transactional wrapper of `createDraftVoucher`. -/
def runCreate (db : DB) (input : CreateDraftVoucherInput) (newVoucherId : String) (now : Int) :
    DB × Except LedgerError Voucher :=
  match createDraftVoucher db input newVoucherId now with
  | .ok (db2, v) => (db2, .ok v)
  | .error e => (db, .error e)

/-- Transactional wrapper of `updateDraftVoucher`. -/
def runUpdate (db : DB) (voucherId : String) (input : UpdateDraftVoucherInput) :
    DB × Except LedgerError UpdateResult :=
  match updateDraftVoucher db voucherId input with
  | .ok (db2, r) => (db2, .ok r)
  | .error e => (db, .error e)

/-- Transactional wrapper of `deleteDraftVoucher`. -/
def runDelete (db : DB) (voucherId : String) : DB × Except LedgerError Bool :=
  match deleteDraftVoucher db voucherId with
  | .ok (db2, r) => (db2, .ok r)
  | .error e => (db, .error e)

/-- One transaction row of the account book.  The display-only relation
fields of the source row (`voucherType.code`, `party.name`) are
omitted; the voucher date stands for its ISO rendering. -/
structure BookRow where
  date : Int
  voucherId : String
  voucherNumber : Option Int
  subType : Option String
  narration : Option String
  debit : ℚ
  credit : ℚ
  balance : ℚ
  balanceSide : String
deriving DecidableEq

/-- The account-book result object. -/
structure Book where
  accountId : String
  accountCode : String
  accountName : String
  openingBalance : ℚ
  openingBalanceSide : String
  transactions : List BookRow
  totalDebit : ℚ
  totalCredit : ℚ
  closingBalance : ℚ
  closingBalanceSide : String
deriving DecidableEq

/-- `end.setHours(23, 59, 59, 999)` on a `to` bound arriving at
midnight: the inclusive end-of-day instant, in milliseconds. -/
def endOfDay (t : Int) : Int := t + 86399999

/-- The signed value of one entry: debits increase the balance,
credits decrease it. -/
def signedAmount (e : EntryRow) : ℚ :=
  if e.side == .DEBIT then e.amount else -e.amount

/-- The opening-balance reduction of `getAccountBook`
(`prevEntries.reduce((sum, e) => e.side === "DEBIT" ? sum + amount : sum - amount, 0)`). -/
def signedFold (l : List EntryRow) : ℚ :=
  l.foldl (fun s e => if e.side == .DEBIT then s + e.amount else s - e.amount) 0

/-- The relation filter `voucher: { companyId, status: POSTED,
voucherDate: { lt: fromDate } }` on an entry. -/
def postedBefore (db : DB) (companyId : String) (fromDate : Int) (e : EntryRow) : Bool :=
  match findVoucherRow db e.voucherId with
  | some v =>
    v.companyId == companyId && v.status == .POSTED && decide (v.voucherDate < fromDate)
  | none => false

/-- The entries feeding the opening balance: POSTED entries on the
account dated strictly before the window start. -/
def openingEntries (db : DB) (companyId accountId : String) (fromDate : Int) : List EntryRow :=
  db.entries.filter (fun e => e.accountId == accountId && postedBefore db companyId fromDate e)

/-- The `voucherDate` window filter built from the optional bounds. -/
def inWindow (fromDate toDate : Option Int) (d : Int) : Bool :=
  (match fromDate with
   | some f => decide (f ≤ d)
   | none => true) &&
  (match toDate with
   | some t => decide (d ≤ endOfDay t)
   | none => true)

/-- The window query of `getAccountBook`: entries on the account whose
(required) voucher is POSTED, belongs to the company and falls in the
window, joined with that voucher. -/
def windowRows (db : DB) (companyId accountId : String) (fromDate toDate : Option Int) :
    List (EntryRow × Voucher) :=
  db.entries.filterMap (fun e =>
    if e.accountId == accountId then
      match findVoucherRow db e.voucherId with
      | some v =>
        if v.companyId == companyId && v.status == .POSTED &&
            inWindow fromDate toDate v.voucherDate then
          some (e, v)
        else none
      | none => none
    else none)

/-- The `orderBy: [{ voucher: { voucherDate: "asc" } }, { voucher:
{ createdAt: "asc" } }]` key: voucher date, ties broken by creation
time. -/
def bookLe (a b : EntryRow × Voucher) : Bool :=
  decide (a.2.voucherDate < b.2.voucherDate) ||
    (a.2.voucherDate == b.2.voucherDate && decide (a.2.createdAt ≤ b.2.createdAt))

/-- The window entries in the report's order. -/
def sortedWindow (db : DB) (companyId accountId : String) (fromDate toDate : Option Int) :
    List (EntryRow × Voucher) :=
  (windowRows db companyId accountId fromDate toDate).mergeSort bookLe

/-- The debit column of one joined row. -/
def rowDebit (p : EntryRow × Voucher) : ℚ :=
  if p.1.side == .DEBIT then p.1.amount else 0

/-- The credit column of one joined row. -/
def rowCredit (p : EntryRow × Voucher) : ℚ :=
  if p.1.side == .CREDIT then p.1.amount else 0

/-- The signed movement of one joined row. -/
def pairSigned (p : EntryRow × Voucher) : ℚ := rowDebit p - rowCredit p

/-- The row-building map of `getAccountBook`, threading the running
signed balance. -/
def bookRows (running : ℚ) : List (EntryRow × Voucher) → List BookRow
  | [] => []
  | p :: rest =>
    let debit := rowDebit p
    let credit := rowCredit p
    let next := running + debit - credit
    { date := p.2.voucherDate
      voucherId := p.2.id
      voucherNumber := p.2.voucherNumber
      subType := p.2.subType
      narration := p.2.narration
      debit := debit
      credit := credit
      balance := ratAbs next
      balanceSide := if 0 ≤ next then ("DR") else ("CR") } :: bookRows next rest

/-- The value of the running signed balance after the whole window. -/
def runningAfter (start : ℚ) (l : List (EntryRow × Voucher)) : ℚ :=
  l.foldl (fun s p => s + rowDebit p - rowCredit p) start

/-- `getAccountBook`: resolve the account by role, reconstruct the
opening balance from POSTED entries before the window, then build the
running-balance rows over the window in date order. -/
def getAccountBook (db : DB) (companyId role : String) (fromDate toDate : Option Int) :
    Except LedgerError Book :=
  match db.accounts.find? (fun a => a.companyId == companyId && a.role == role) with
  | none => .error .accountNotFound
  | some account =>
    let openingSigned : ℚ :=
      match fromDate with
      | some f => signedFold (openingEntries db companyId account.id f)
      | none => 0
    let sorted := sortedWindow db companyId account.id fromDate toDate
    let transactions := bookRows openingSigned sorted
    let closingSigned := runningAfter openingSigned sorted
    .ok { accountId := account.id
          accountCode := account.code
          accountName := account.name
          openingBalance := ratAbs openingSigned
          openingBalanceSide := if 0 ≤ openingSigned then ("DR") else ("CR")
          transactions := transactions
          totalDebit := (transactions.map (fun r => r.debit)).sum
          totalCredit := (transactions.map (fun r => r.credit)).sum
          closingBalance := ratAbs closingSigned
          closingBalanceSide := if 0 ≤ closingSigned then ("DR") else ("CR") }

/-- A store holding only seed data: accounts (and the companies and
voucher types behind their foreign keys), but no vouchers and no
entries yet. -/
def emptyLedger (accounts : List Account) : DB :=
  { accounts := accounts, vouchers := [], entries := [] }

/-- The states of the store reachable through the engine's operations.
Creation receives a database-generated primary key, so the new voucher
id never collides with an existing one. -/
inductive Reachable : DB → Prop where
  | seed (accounts : List Account) : Reachable (emptyLedger accounts)
  | create {db db2 : DB} {input : CreateDraftVoucherInput} {newVoucherId : String}
      {now : Int} {v : Voucher} :
      Reachable db → (∀ w ∈ db.vouchers, w.id ≠ newVoucherId) →
      createDraftVoucher db input newVoucherId now = .ok (db2, v) → Reachable db2
  | update {db db2 : DB} {voucherId : String} {input : UpdateDraftVoucherInput}
      {r : UpdateResult} :
      Reachable db → updateDraftVoucher db voucherId input = .ok (db2, r) → Reachable db2
  | delete {db db2 : DB} {voucherId : String} {r : Bool} :
      Reachable db → deleteDraftVoucher db voucherId = .ok (db2, r) → Reachable db2
  | post {db db2 : DB} {voucherId : String} {r : PostResult} :
      Reachable db → postVoucher db voucherId = .ok (db2, r) → Reachable db2

/-! ## Helper lemmas -/

theorem ratAbs_eq_abs (q : ℚ) : ratAbs q = |q| := by
  unfold ratAbs
  split
  · exact (abs_of_neg (by assumption)).symm
  · exact (abs_of_nonneg (le_of_not_lt (by assumption))).symm

theorem rowDebitTotal_nil : rowDebitTotal [] = 0 := rfl

theorem rowCreditTotal_nil : rowCreditTotal [] = 0 := rfl

theorem rowDebitTotal_cons (e : EntryRow) (es : List EntryRow) :
    rowDebitTotal (e :: es) =
      (if e.side = .DEBIT then e.amount else 0) + rowDebitTotal es := by
  cases h : e.side <;> simp [rowDebitTotal, List.filter_cons, h]

theorem rowCreditTotal_cons (e : EntryRow) (es : List EntryRow) :
    rowCreditTotal (e :: es) =
      (if e.side = .CREDIT then e.amount else 0) + rowCreditTotal es := by
  cases h : e.side <;> simp [rowCreditTotal, List.filter_cons, h]

theorem sumEntrySides_ok (es : List EntryRow) :
    ∀ debitTot creditTot, (∀ e ∈ es, 0 < e.amount) →
      sumEntrySides es debitTot creditTot =
        .ok (debitTot + rowDebitTotal es, creditTot + rowCreditTotal es) := by
  induction es with
  | nil => intro d c _; simp [sumEntrySides, rowDebitTotal_nil, rowCreditTotal_nil]
  | cons e rest ih =>
    intro d c hpos
    have he : 0 < e.amount := hpos e (by simp)
    have hrest : ∀ x ∈ rest, 0 < x.amount := fun x hx => hpos x (by simp [hx])
    rw [sumEntrySides, if_neg (not_le.mpr he)]
    cases h : e.side with
    | DEBIT =>
      simp only [beq_self_eq_true, if_true]
      rw [ih _ _ hrest, rowDebitTotal_cons, rowCreditTotal_cons, h]
      simp only [reduceIte, reduceCtorEq, if_false, Except.ok.injEq, Prod.mk.injEq]
      constructor <;> ring
    | CREDIT =>
      simp only [beq_iff_eq, reduceCtorEq, if_false]
      rw [ih _ _ hrest, rowDebitTotal_cons, rowCreditTotal_cons, h]
      simp only [reduceIte, reduceCtorEq, if_false, Except.ok.injEq, Prod.mk.injEq]
      constructor <;> ring

theorem sumEntrySides_err (es : List EntryRow) :
    ∀ debitTot creditTot, (∃ e ∈ es, e.amount ≤ 0) →
      sumEntrySides es debitTot creditTot = .error .entryAmountNotPositive := by
  induction es with
  | nil => intro _ _ h; simp at h
  | cons e rest ih =>
    intro d c h
    by_cases he : e.amount ≤ 0
    · rw [sumEntrySides, if_pos he]
    · rw [sumEntrySides, if_neg he]
      have hrest : ∃ x ∈ rest, x.amount ≤ 0 := by
        rcases h with ⟨x, hx, hxa⟩
        rcases List.mem_cons.mp hx with rfl | hx2
        · exact absurd hxa he
        · exact ⟨x, hx2, hxa⟩
      cases e.side == .DEBIT <;> simp only [ih _ _ hrest, Bool.false_eq_true, if_false, if_true]

theorem sumEntrySides_ok_inv (es : List EntryRow) :
    ∀ debitTot creditTot dt ct,
      sumEntrySides es debitTot creditTot = .ok (dt, ct) →
      (∀ e ∈ es, 0 < e.amount) ∧
        dt = debitTot + rowDebitTotal es ∧ ct = creditTot + rowCreditTotal es := by
  induction es with
  | nil =>
    intro d c dt ct h
    simp [sumEntrySides] at h
    simp [rowDebitTotal_nil, rowCreditTotal_nil, h.1.symm, h.2.symm]
  | cons e rest ih =>
    intro d c dt ct h
    rw [sumEntrySides] at h
    by_cases he : e.amount ≤ 0
    · rw [if_pos he] at h; exact absurd h (by simp)
    · rw [if_neg he] at h
      have hepos : 0 < e.amount := not_le.mp he
      cases hside : e.side with
      | DEBIT =>
        simp only [hside, reduceIte, reduceCtorEq, beq_self_eq_true, if_true] at h
        obtain ⟨hall, hdt, hct⟩ := ih _ _ _ _ h
        refine ⟨?_, ?_, ?_⟩
        · intro x hx
          rcases List.mem_cons.mp hx with rfl | hx2
          · exact hepos
          · exact hall x hx2
        · rw [hdt, rowDebitTotal_cons, hside, if_pos rfl]; ring
        · rw [hct, rowCreditTotal_cons, hside]
          simp only [reduceCtorEq, if_false, zero_add]
      | CREDIT =>
        simp only [hside, reduceCtorEq, beq_iff_eq, if_false] at h
        obtain ⟨hall, hdt, hct⟩ := ih _ _ _ _ h
        refine ⟨?_, ?_, ?_⟩
        · intro x hx
          rcases List.mem_cons.mp hx with rfl | hx2
          · exact hepos
          · exact hall x hx2
        · rw [hdt, rowDebitTotal_cons, hside]
          simp only [reduceCtorEq, if_false, zero_add]
        · rw [hct, rowCreditTotal_cons, hside, if_pos rfl]; ring

theorem find?_map_id_pres (l : List Voucher) (f : Voucher → Voucher)
    (hf : ∀ v, (f v).id = v.id) (voucherId : String) :
    (l.map f).find? (fun v => v.id == voucherId) =
      (l.find? (fun v => v.id == voucherId)).map f := by
  induction l with
  | nil => rfl
  | cons a rest ih =>
    by_cases h : a.id = voucherId
    · simp [List.find?_cons, hf a, h]
    · simp [List.find?_cons, hf a, h, ih]

theorem filter_toRow_self (es : List GeneratedEntry) (voucherId : String) :
    (es.map (fun e => e.toRow voucherId)).filter (fun e => e.voucherId == voucherId) =
      es.map (fun e => e.toRow voucherId) := by
  induction es with
  | nil => rfl
  | cons e rest ih => simp [GeneratedEntry.toRow, List.filter_cons, ih]

theorem filter_toRow_ne (es : List GeneratedEntry) (newVoucherId voucherId : String)
    (h : newVoucherId ≠ voucherId) :
    (es.map (fun e => e.toRow newVoucherId)).filter (fun e => e.voucherId == voucherId) = [] := by
  induction es with
  | nil => rfl
  | cons e rest ih => simp [GeneratedEntry.toRow, List.filter_cons, h, ih]

theorem rowDebitTotal_toRow (es : List GeneratedEntry) (voucherId : String) :
    rowDebitTotal (es.map (fun e => e.toRow voucherId)) = debitTotal es := by
  induction es with
  | nil => rfl
  | cons e rest ih =>
    cases h : e.side <;>
      simp [rowDebitTotal, debitTotal, GeneratedEntry.toRow, List.filter_cons, h] at ih ⊢ <;>
      simpa using ih

theorem rowCreditTotal_toRow (es : List GeneratedEntry) (voucherId : String) :
    rowCreditTotal (es.map (fun e => e.toRow voucherId)) = creditTotal es := by
  induction es with
  | nil => rfl
  | cons e rest ih =>
    cases h : e.side <;>
      simp [rowCreditTotal, debitTotal, creditTotal, GeneratedEntry.toRow,
        List.filter_cons, h] at ih ⊢ <;>
      simpa using ih

theorem debitTotal_cons (e : GeneratedEntry) (es : List GeneratedEntry) :
    debitTotal (e :: es) = (if e.side = .DEBIT then e.amount else 0) + debitTotal es := by
  cases h : e.side <;> simp [debitTotal, List.filter_cons, h]

theorem creditTotal_cons (e : GeneratedEntry) (es : List GeneratedEntry) :
    creditTotal (e :: es) = (if e.side = .CREDIT then e.amount else 0) + creditTotal es := by
  cases h : e.side <;> simp [creditTotal, List.filter_cons, h]

/-- Every non-JOURNAL template either fails or returns exactly two
entries, a debit and a credit, each carrying the full transaction
amount. -/
theorem generate_nonjournal_shape (input : VoucherTemplateInput)
    (hkind : input.voucherType ≠ .JOURNAL) (es : List GeneratedEntry)
    (h : generateEntriesFromTemplate input = .ok es) :
    ∃ debitAccount creditAccount,
      es = [⟨debitAccount, .DEBIT, input.totalAmount⟩,
            ⟨creditAccount, .CREDIT, input.totalAmount⟩] := by
  cases hk : input.voucherType <;>
    simp only [generateEntriesFromTemplate, hk, saleTemplate, purchaseTemplate,
      receiptTemplate, paymentTemplate, contraTemplate] at h <;>
    first
      | exact absurd hk hkind
      | (split_ifs at h <;>
          first
            | exact Except.noConfusion h
            | exact ⟨_, _, by simpa using h.symm⟩)

/-- The shape of the two-entry lists produced by the non-JOURNAL
templates: exact balance and full-amount entries. -/
theorem pair_entries_balanced (debitAccount creditAccount : String) (amount : ℚ) :
    debitTotal [⟨debitAccount, .DEBIT, amount⟩, ⟨creditAccount, .CREDIT, amount⟩] = amount ∧
    creditTotal [⟨debitAccount, .DEBIT, amount⟩, ⟨creditAccount, .CREDIT, amount⟩] = amount := by
  constructor <;> simp [debitTotal, creditTotal, List.filter_cons]

/-- A successful JOURNAL generation returns the caller's list, which
therefore balances within epsilon. -/
theorem journal_ok_inv (input : VoucherTemplateInput) (es : List GeneratedEntry)
    (hkind : input.voucherType = .JOURNAL)
    (h : generateEntriesFromTemplate input = .ok es) :
    input.journalEntries = some es ∧ 2 ≤ es.length ∧
      ratAbs (debitTotal es - creditTotal es) ≤ epsilon := by
  cases hj : input.journalEntries with
  | none =>
    simp only [generateEntriesFromTemplate, hkind, journalTemplate, hj] at h
    exact Except.noConfusion h
  | some js =>
    simp only [generateEntriesFromTemplate, hkind, journalTemplate, hj] at h
    split_ifs at h with h1 h2
    all_goals
      first
        | exact Except.noConfusion h
        | · have hje : js = es := by simpa using h
            subst hje
            exact ⟨rfl, by omega, le_of_not_lt h2⟩

/-- Any successful generation balances within epsilon. -/
theorem generate_ok_eps (input : VoucherTemplateInput) (es : List GeneratedEntry)
    (h : generateEntriesFromTemplate input = .ok es) :
    ratAbs (debitTotal es - creditTotal es) ≤ epsilon := by
  by_cases hkind : input.voucherType = .JOURNAL
  · exact (journal_ok_inv input es hkind h).2.2
  · obtain ⟨da, ca, rfl⟩ := generate_nonjournal_shape input hkind es h
    obtain ⟨hd, hc⟩ := pair_entries_balanced da ca input.totalAmount
    rw [hd, hc, sub_self]
    simp only [ratAbs]
    norm_num [epsilon]

/-- The signed running balance a book row reports: its absolute
balance on the `DR` side, its negation on the `CR` side. -/
def rowSigned (r : BookRow) : ℚ :=
  if r.balanceSide = "DR" then r.balance else -r.balance

theorem rowSigned_mk (x : ℚ) (r : BookRow)
    (hb : r.balance = ratAbs x) (hs : r.balanceSide = if 0 ≤ x then ("DR") else ("CR")) :
    rowSigned r = x := by
  by_cases h : 0 ≤ x
  · rw [rowSigned, hs, if_pos h, if_pos rfl, hb, ratAbs_eq_abs, abs_of_nonneg h]
  · rw [rowSigned, hs, if_neg h, if_neg (by simp), hb, ratAbs_eq_abs,
      abs_of_neg (not_le.mp h), neg_neg]

theorem signedFold_aux (l : List EntryRow) :
    ∀ s : ℚ, l.foldl (fun s e => if e.side == .DEBIT then s + e.amount else s - e.amount) s =
      s + (l.map signedAmount).sum := by
  induction l with
  | nil => intro s; simp
  | cons e rest ih =>
    intro s
    cases h : e.side <;>
      simp only [List.foldl_cons, List.map_cons, List.sum_cons, h, signedAmount] <;>
      rw [ih] <;> simp <;> ring

theorem signedFold_eq_sum (l : List EntryRow) :
    signedFold l = (l.map signedAmount).sum := by
  rw [signedFold, signedFold_aux]
  simp

theorem runningAfter_eq_sum (l : List (EntryRow × Voucher)) :
    ∀ start : ℚ, runningAfter start l = start + (l.map pairSigned).sum := by
  induction l with
  | nil => intro s; simp [runningAfter]
  | cons p rest ih =>
    intro s
    simp only [runningAfter, List.foldl_cons, List.map_cons, List.sum_cons] at ih ⊢
    rw [ih]
    simp only [pairSigned]
    ring

theorem bookRows_map_data (l : List (EntryRow × Voucher)) :
    ∀ running : ℚ, (bookRows running l).map (fun r => (r.date, r.debit, r.credit)) =
      l.map (fun p => (p.2.voucherDate, rowDebit p, rowCredit p)) := by
  induction l with
  | nil => intro _; rfl
  | cons p rest ih => intro running; simp [bookRows, ih]

theorem bookRows_length (l : List (EntryRow × Voucher)) :
    ∀ running : ℚ, (bookRows running l).length = l.length := by
  induction l with
  | nil => intro _; rfl
  | cons p rest ih => intro running; simp [bookRows, ih]

theorem bookRows_get_signed (l : List (EntryRow × Voucher)) :
    ∀ (running : ℚ) (i : ℕ) (hi : i < (bookRows running l).length),
      rowSigned ((bookRows running l).get ⟨i, hi⟩) =
        running + ((l.take (i + 1)).map pairSigned).sum := by
  induction l with
  | nil => intro running i hi; simp [bookRows] at hi
  | cons p rest ih =>
    intro running i hi
    cases i with
    | zero =>
      simp only [bookRows, List.get, List.take_succ_cons, List.take_zero,
        List.map_cons, List.map_nil, List.sum_cons, List.sum_nil, pairSigned]
      rw [rowSigned_mk (running + rowDebit p - rowCredit p) _ rfl rfl]
      ring
    | succ j =>
      have hj : j < (bookRows (running + rowDebit p - rowCredit p) rest).length := by
        simpa [bookRows] using Nat.lt_of_succ_lt_succ hi
      have := ih (running + rowDebit p - rowCredit p) j hj
      simp only [bookRows, List.get, List.take_succ_cons, List.map_cons, List.sum_cons]
      rw [this, pairSigned]
      ring

theorem bookLe_trans (a b c : EntryRow × Voucher)
    (hab : bookLe a b = true) (hbc : bookLe b c = true) : bookLe a c = true := by
  simp only [bookLe, Bool.or_eq_true, Bool.and_eq_true, decide_eq_true_eq,
    beq_iff_eq] at hab hbc ⊢
  omega

theorem bookLe_total (a b : EntryRow × Voucher) :
    (bookLe a b || bookLe b a) = true := by
  simp only [bookLe, Bool.or_eq_true, Bool.and_eq_true, decide_eq_true_eq, beq_iff_eq]
  omega

theorem sortedWindow_perm (db : DB) (companyId accountId : String)
    (fromDate toDate : Option Int) :
    (sortedWindow db companyId accountId fromDate toDate).Perm
      (windowRows db companyId accountId fromDate toDate) :=
  List.mergeSort_perm _ _

theorem sortedWindow_sorted (db : DB) (companyId accountId : String)
    (fromDate toDate : Option Int) :
    List.Pairwise (fun a b => bookLe a b = true)
      (sortedWindow db companyId accountId fromDate toDate) :=
  List.sorted_mergeSort (fun a b c => bookLe_trans a b c) bookLe_total _

theorem create_ok_intro (db : DB) (input : CreateDraftVoucherInput) (newVoucherId : String)
    (now : Int) (es : List GeneratedEntry)
    (hgen : generateEntriesFromTemplate input.templateArgs = .ok es) :
    createDraftVoucher db input newVoucherId now =
      .ok ({ db with
              vouchers := db.vouchers ++ [newDraftVoucher input newVoucherId now]
              entries := db.entries ++ es.map (fun e => e.toRow newVoucherId) },
           newDraftVoucher input newVoucherId now) := by
  have heps := generate_ok_eps _ _ hgen
  simp only [createDraftVoucher, hgen]
  rw [if_neg (not_lt.mpr heps)]

theorem create_ok_elim {db db2 : DB} {input : CreateDraftVoucherInput}
    {newVoucherId : String} {now : Int} {v : Voucher}
    (h : createDraftVoucher db input newVoucherId now = .ok (db2, v)) :
    ∃ es, generateEntriesFromTemplate input.templateArgs = .ok es ∧
      v = newDraftVoucher input newVoucherId now ∧
      db2 = { db with
              vouchers := db.vouchers ++ [newDraftVoucher input newVoucherId now]
              entries := db.entries ++ es.map (fun e => e.toRow newVoucherId) } := by
  cases hgen : generateEntriesFromTemplate input.templateArgs with
  | error e =>
    simp only [createDraftVoucher, hgen] at h
    exact Except.noConfusion h
  | ok es =>
    have h2 := (create_ok_intro db input newVoucherId now es hgen).symm.trans h
    have h3 := Except.ok.inj h2
    exact ⟨es, rfl, (congrArg Prod.snd h3).symm, (congrArg Prod.fst h3).symm⟩

theorem create_error_iff (db : DB) (input : CreateDraftVoucherInput)
    (newVoucherId : String) (now : Int) (err : LedgerError) :
    createDraftVoucher db input newVoucherId now = .error err ↔
      ∃ te, err = .templateError te ∧
        generateEntriesFromTemplate input.templateArgs = .error te := by
  cases hgen : generateEntriesFromTemplate input.templateArgs with
  | error e =>
    simp only [createDraftVoucher, hgen]
    constructor
    · intro h
      exact ⟨e, (Except.error.inj h).symm, rfl⟩
    · rintro ⟨te, rfl, hte⟩
      rw [Except.error.inj hte]
  | ok es =>
    rw [create_ok_intro db input newVoucherId now es hgen]
    constructor
    · intro h
      exact Except.noConfusion h
    · rintro ⟨te, rfl, hte⟩
      exact Except.noConfusion hte

theorem post_notFound {db : DB} {voucherId : String}
    (hv : findVoucherRow db voucherId = none) :
    postVoucher db voucherId = .error .voucherNotFound := by
  simp only [postVoucher, hv]

theorem post_nondraft {db : DB} {voucherId : String} {v : Voucher}
    (hv : findVoucherRow db voucherId = some v) (hs : v.status ≠ .DRAFT) :
    postVoucher db voucherId = .error .onlyDraftAllowed := by
  simp only [postVoucher, hv, if_pos hs]

theorem update_notFound {db : DB} {voucherId : String} {input : UpdateDraftVoucherInput}
    (hv : findVoucherRow db voucherId = none) :
    updateDraftVoucher db voucherId input = .error .voucherNotFound := by
  simp only [updateDraftVoucher, hv]

theorem update_nondraft {db : DB} {voucherId : String} {input : UpdateDraftVoucherInput}
    {v : Voucher} (hv : findVoucherRow db voucherId = some v) (hs : v.status ≠ .DRAFT) :
    updateDraftVoucher db voucherId input = .error .onlyDraftAllowed := by
  simp only [updateDraftVoucher, hv, if_pos hs]

theorem delete_notFound {db : DB} {voucherId : String}
    (hv : findVoucherRow db voucherId = none) :
    deleteDraftVoucher db voucherId = .error .voucherNotFound := by
  simp only [deleteDraftVoucher, hv]

theorem delete_nondraft {db : DB} {voucherId : String} {v : Voucher}
    (hv : findVoucherRow db voucherId = some v) (hs : v.status ≠ .DRAFT) :
    deleteDraftVoucher db voucherId = .error .onlyDraftAllowed := by
  simp only [deleteDraftVoucher, hv, if_pos hs]

theorem voucherEntries_markPosted (db : DB) (voucherId : String) (n : Int) (x : String) :
    voucherEntries (markPosted db voucherId n) x = voucherEntries db x := rfl

theorem findVoucherRow_markPosted (db : DB) (voucherId : String) (n : Int) :
    findVoucherRow (markPosted db voucherId n) voucherId =
      (findVoucherRow db voucherId).map
        (fun v => { v with status := .POSTED, voucherNumber := some n }) := by
  unfold findVoucherRow markPosted
  rw [find?_map_id_pres _ _
    (fun v => by by_cases h : v.id == voucherId <;> simp [h]) voucherId]
  cases hf : db.vouchers.find? (fun v => v.id == voucherId) with
  | none => rfl
  | some v =>
    have hp := List.find?_some hf
    simp only [Option.map_some']
    rw [if_pos hp]

theorem post_ok_intro {db : DB} {voucherId : String} {v : Voucher}
    (hv : findVoucherRow db voucherId = some v) (hd : v.status = .DRAFT)
    (hlen : 2 ≤ (voucherEntries db voucherId).length)
    (hpos : ∀ e ∈ voucherEntries db voucherId, 0 < e.amount)
    (hbal : rowDebitTotal (voucherEntries db voucherId) =
      rowCreditTotal (voucherEntries db voucherId)) :
    postVoucher db voucherId =
      .ok (markPosted db voucherId
             ((lastPostedNumber db v.companyId v.voucherTypeId).getD 0 + 1),
           { voucherId := voucherId
             voucherNumber := (lastPostedNumber db v.companyId v.voucherTypeId).getD 0 + 1
             status := .POSTED }) := by
  simp only [postVoucher, hv]
  rw [if_neg (by simp [hd])]
  rw [if_neg (not_lt.mpr hlen)]
  rw [sumEntrySides_ok _ 0 0 hpos]
  simp [hbal]

theorem post_tooFew {db : DB} {voucherId : String} {v : Voucher}
    (hv : findVoucherRow db voucherId = some v) (hd : v.status = .DRAFT)
    (hlen : (voucherEntries db voucherId).length < 2) :
    postVoucher db voucherId = .error .atLeastTwoEntries := by
  simp only [postVoucher, hv]
  rw [if_neg (by simp [hd]), if_pos hlen]

theorem post_negAmount {db : DB} {voucherId : String} {v : Voucher}
    (hv : findVoucherRow db voucherId = some v) (hd : v.status = .DRAFT)
    (hlen : ¬ (voucherEntries db voucherId).length < 2)
    (hex : ∃ e ∈ voucherEntries db voucherId, e.amount ≤ 0) :
    postVoucher db voucherId = .error .entryAmountNotPositive := by
  simp only [postVoucher, hv]
  rw [if_neg (by simp [hd]), if_neg hlen, sumEntrySides_err _ 0 0 hex]

theorem post_mismatch {db : DB} {voucherId : String} {v : Voucher}
    (hv : findVoucherRow db voucherId = some v) (hd : v.status = .DRAFT)
    (hlen : ¬ (voucherEntries db voucherId).length < 2)
    (hpos : ∀ e ∈ voucherEntries db voucherId, 0 < e.amount)
    (hbal : rowDebitTotal (voucherEntries db voucherId) ≠
      rowCreditTotal (voucherEntries db voucherId)) :
    postVoucher db voucherId = .error .debitCreditMismatch := by
  simp only [postVoucher, hv]
  rw [if_neg (by simp [hd]), if_neg hlen, sumEntrySides_ok _ 0 0 hpos]
  simp [hbal]

theorem post_ok_elim {db db2 : DB} {voucherId : String} {r : PostResult}
    (h : postVoucher db voucherId = .ok (db2, r)) :
    ∃ v, findVoucherRow db voucherId = some v ∧ v.status = .DRAFT ∧
      2 ≤ (voucherEntries db voucherId).length ∧
      (∀ e ∈ voucherEntries db voucherId, 0 < e.amount) ∧
      rowDebitTotal (voucherEntries db voucherId) =
        rowCreditTotal (voucherEntries db voucherId) ∧
      r = { voucherId := voucherId
            voucherNumber := (lastPostedNumber db v.companyId v.voucherTypeId).getD 0 + 1
            status := .POSTED } ∧
      db2 = markPosted db voucherId r.voucherNumber := by
  cases hv : findVoucherRow db voucherId with
  | none => rw [post_notFound hv] at h; exact Except.noConfusion h
  | some v =>
    by_cases hd : v.status = .DRAFT
    · by_cases hlen : 2 ≤ (voucherEntries db voucherId).length
      · by_cases hpos : ∀ e ∈ voucherEntries db voucherId, 0 < e.amount
        · by_cases hbal : rowDebitTotal (voucherEntries db voucherId) =
              rowCreditTotal (voucherEntries db voucherId)
          · have h2 := (post_ok_intro hv hd hlen hpos hbal).symm.trans h
            have h3 := Except.ok.inj h2
            have h4 : markPosted db voucherId
                ((lastPostedNumber db v.companyId v.voucherTypeId).getD 0 + 1) = db2 :=
              congrArg Prod.fst h3
            have h5 : ({ voucherId := voucherId
                         voucherNumber :=
                           (lastPostedNumber db v.companyId v.voucherTypeId).getD 0 + 1
                         status := .POSTED } : PostResult) = r :=
              congrArg Prod.snd h3
            cases h5
            cases h4
            exact ⟨v, rfl, hd, hlen, hpos, hbal, rfl, rfl⟩
          · rw [post_mismatch hv hd (not_lt.mpr hlen) hpos hbal] at h
            exact Except.noConfusion h
        · have hex : ∃ e ∈ voucherEntries db voucherId, e.amount ≤ 0 := by
            push_neg at hpos
            obtain ⟨e, he, hea⟩ := hpos
            exact ⟨e, he, hea⟩
          rw [post_negAmount hv hd (not_lt.mpr hlen) hex] at h
          exact Except.noConfusion h
      · rw [post_tooFew hv hd (by omega)] at h
        exact Except.noConfusion h
    · rw [post_nondraft hv hd] at h
      exact Except.noConfusion h

theorem update_ok_intro {db : DB} {voucherId : String} {input : UpdateDraftVoucherInput}
    {v : Voucher} (es : List GeneratedEntry)
    (hv : findVoucherRow db voucherId = some v) (hd : v.status = .DRAFT)
    (hgen : generateEntriesFromTemplate input.templateArgs = .ok es)
    (hbal : debitTotal es = creditTotal es) :
    updateDraftVoucher db voucherId input =
      .ok ({ db with
              vouchers := db.vouchers.map (fun w =>
                if w.id == voucherId then
                  { w with voucherDate := input.voucherDate, narration := input.narration }
                else w)
              entries := db.entries.filter (fun e => !(e.voucherId == voucherId)) ++
                es.map (fun e => e.toRow voucherId) },
           { voucherId := voucherId, status := .DRAFT }) := by
  simp only [updateDraftVoucher, hv, hgen]
  rw [if_neg (by simp [hd]), if_neg (by simp [hbal])]

theorem update_ok_elim {db db2 : DB} {voucherId : String} {input : UpdateDraftVoucherInput}
    {r : UpdateResult} (h : updateDraftVoucher db voucherId input = .ok (db2, r)) :
    ∃ v es, findVoucherRow db voucherId = some v ∧ v.status = .DRAFT ∧
      generateEntriesFromTemplate input.templateArgs = .ok es ∧
      debitTotal es = creditTotal es ∧
      r = { voucherId := voucherId, status := .DRAFT } ∧
      db2 = { db with
              vouchers := db.vouchers.map (fun w =>
                if w.id == voucherId then
                  { w with voucherDate := input.voucherDate, narration := input.narration }
                else w)
              entries := db.entries.filter (fun e => !(e.voucherId == voucherId)) ++
                es.map (fun e => e.toRow voucherId) } := by
  cases hv : findVoucherRow db voucherId with
  | none => rw [update_notFound hv] at h; exact Except.noConfusion h
  | some v =>
    by_cases hd : v.status = .DRAFT
    · cases hgen : generateEntriesFromTemplate input.templateArgs with
      | error e =>
        simp only [updateDraftVoucher, hv, hgen] at h
        rw [if_neg (by simp [hd])] at h
        exact Except.noConfusion h
      | ok es =>
        by_cases hbal : debitTotal es = creditTotal es
        · have h2 := (update_ok_intro es hv hd hgen hbal).symm.trans h
          have h3 := Except.ok.inj h2
          have h4 := congrArg Prod.fst h3
          have h5 := congrArg Prod.snd h3
          exact ⟨v, es, rfl, hd, rfl, hbal, h5.symm, h4.symm⟩
        · simp only [updateDraftVoucher, hv, hgen] at h
          rw [if_neg (by simp [hd]), if_pos (by simpa using hbal)] at h
          exact Except.noConfusion h
    · rw [update_nondraft hv hd] at h
      exact Except.noConfusion h

theorem delete_ok_elim {db db2 : DB} {voucherId : String} {r : Bool}
    (h : deleteDraftVoucher db voucherId = .ok (db2, r)) :
    ∃ v, findVoucherRow db voucherId = some v ∧ v.status = .DRAFT ∧
      db2 = { db with
              vouchers := db.vouchers.filter (fun v => !(v.id == voucherId))
              entries := db.entries.filter (fun e => !(e.voucherId == voucherId)) } := by
  cases hv : findVoucherRow db voucherId with
  | none => rw [delete_notFound hv] at h; exact Except.noConfusion h
  | some v =>
    by_cases hd : v.status = .DRAFT
    · simp only [deleteDraftVoucher, hv] at h
      rw [if_neg (by simp [hd])] at h
      have h3 := Except.ok.inj h
      exact ⟨v, rfl, hd, (congrArg Prod.fst h3).symm⟩
    · rw [delete_nondraft hv hd] at h
      exact Except.noConfusion h

theorem map_map_id (l : List Voucher) (f : Voucher → Voucher)
    (hf : ∀ v, (f v).id = v.id) :
    (l.map f).map (fun v => v.id) = l.map (fun v => v.id) := by
  induction l with
  | nil => rfl
  | cons a rest ih => simp [hf a, ih]

theorem nodup_id_unique {l : List Voucher}
    (hnd : (l.map (fun v => v.id)).Nodup) {a b : Voucher}
    (ha : a ∈ l) (hb : b ∈ l) (hab : a.id = b.id) : a = b := by
  induction l with
  | nil => simp at ha
  | cons x rest ih =>
    simp only [List.map_cons, List.nodup_cons] at hnd
    rcases List.mem_cons.mp ha with rfl | ha2 <;>
      rcases List.mem_cons.mp hb with rfl | hb2
    · rfl
    · exact absurd (hab ▸ List.mem_map_of_mem (fun v => v.id) hb2) hnd.1
    · exact absurd (hab ▸ List.mem_map_of_mem (fun v => v.id) ha2) hnd.1
    · exact ih hnd.2 ha2 hb2

theorem filter_not_then {l : List EntryRow} (voucherId x : String) (h : x ≠ voucherId) :
    (l.filter (fun e => !(e.voucherId == voucherId))).filter (fun e => e.voucherId == x) =
      l.filter (fun e => e.voucherId == x) := by
  rw [List.filter_filter]
  refine List.filter_congr (fun e _ => ?_)
  by_cases he : e.voucherId = x
  · simp [he, h]
  · simp [he]

theorem filter_not_then_self (l : List EntryRow) (voucherId : String) :
    (l.filter (fun e => !(e.voucherId == voucherId))).filter
      (fun e => e.voucherId == voucherId) = [] := by
  rw [List.filter_filter]
  have : ∀ e ∈ l, ((e.voucherId == voucherId) && !(e.voucherId == voucherId)) = false := by
    intro e _
    cases h : e.voucherId == voucherId <;> simp [h]
  rw [List.filter_congr this]
  exact List.filter_false l

/-- The per-voucher invariant that actually holds on this code: at
least two entries, totals within epsilon, and — only once POSTED —
exact balance and strictly positive amounts. -/
def GoodVoucher (db : DB) (v : Voucher) : Prop :=
  2 ≤ (voucherEntries db v.id).length ∧
  ratAbs (rowDebitTotal (voucherEntries db v.id) -
    rowCreditTotal (voucherEntries db v.id)) ≤ epsilon ∧
  (v.status = .POSTED →
    rowDebitTotal (voucherEntries db v.id) = rowCreditTotal (voucherEntries db v.id) ∧
    ∀ e ∈ voucherEntries db v.id, 0 < e.amount)

/-- The structural invariant of reachable stores: voucher primary keys
are unique, entries reference existing vouchers, and every voucher
satisfies `GoodVoucher`. -/
def LedgerInvariant (db : DB) : Prop :=
  (db.vouchers.map (fun v => v.id)).Nodup ∧
  (∀ e ∈ db.entries, ∃ v ∈ db.vouchers, v.id = e.voucherId) ∧
  (∀ v ∈ db.vouchers, GoodVoucher db v)

theorem goodVoucher_of_eq {db db2 : DB} {v v2 : Voucher}
    (h : voucherEntries db2 v2.id = voucherEntries db v.id)
    (hs : v2.status = v.status) (hg : GoodVoucher db v) : GoodVoucher db2 v2 := by
  rw [GoodVoucher, h, hs]
  exact hg

theorem generated_length {ti : VoucherTemplateInput} {es : List GeneratedEntry}
    (hgen : generateEntriesFromTemplate ti = .ok es) : 2 ≤ es.length := by
  by_cases hk : ti.voucherType = .JOURNAL
  · exact (journal_ok_inv ti es hk hgen).2.1
  · obtain ⟨da, ca, rfl⟩ := generate_nonjournal_shape ti hk es hgen
    simp

theorem ratAbs_zero_le_eps : ratAbs 0 ≤ epsilon := by
  simp only [ratAbs]
  norm_num [epsilon]

theorem inv_create {db db2 : DB} {input : CreateDraftVoucherInput} {newVoucherId : String}
    {now : Int} {v : Voucher} (hinv : LedgerInvariant db)
    (hfresh : ∀ w ∈ db.vouchers, w.id ≠ newVoucherId)
    (h : createDraftVoucher db input newVoucherId now = .ok (db2, v)) :
    LedgerInvariant db2 := by
  obtain ⟨es, hgen, hveq, hdbeq⟩ := create_ok_elim h
  subst hdbeq
  obtain ⟨hnd, hfk, hgood⟩ := hinv
  have hnilfilter : db.entries.filter (fun e => e.voucherId == newVoucherId) = [] := by
    rw [List.filter_eq_nil_iff]
    intro e he
    obtain ⟨x, hx, hxe⟩ := hfk e he
    simp only [beq_iff_eq]
    intro hcontra
    exact hfresh x hx (hxe.trans hcontra)
  refine ⟨?_, ?_, ?_⟩
  · simp only [List.map_append, List.map_cons, List.map_nil]
    rw [List.nodup_append]
    refine ⟨hnd, List.nodup_singleton _, ?_⟩
    intro a ha hb
    simp only [newDraftVoucher, List.mem_singleton] at hb
    obtain ⟨w, hw, rfl⟩ := List.mem_map.mp ha
    exact hfresh w hw hb
  · intro e he
    rcases List.mem_append.mp he with he1 | he2
    · obtain ⟨w, hw, hwe⟩ := hfk e he1
      exact ⟨w, List.mem_append_left _ hw, hwe⟩
    · obtain ⟨g, hg, rfl⟩ := List.mem_map.mp he2
      exact ⟨newDraftVoucher input newVoucherId now,
        List.mem_append_right _ (by simp), rfl⟩
  · intro w hw
    rcases List.mem_append.mp hw with hw1 | hw2
    · have hwid : w.id ≠ newVoucherId := hfresh w hw1
      have hent : voucherEntries
          { db with
              vouchers := db.vouchers ++ [newDraftVoucher input newVoucherId now]
              entries := db.entries ++ es.map (fun e => e.toRow newVoucherId) } w.id =
          voucherEntries db w.id := by
        show (db.entries ++ es.map (fun e => e.toRow newVoucherId)).filter
          (fun e => e.voucherId == w.id) = _
        rw [List.filter_append, filter_toRow_ne es newVoucherId w.id (Ne.symm hwid),
          List.append_nil]
        rfl
      exact goodVoucher_of_eq hent rfl (hgood w hw1)
    · have hw3 : w = newDraftVoucher input newVoucherId now := by simpa using hw2
      subst hw3
      have hent : voucherEntries
          { db with
              vouchers := db.vouchers ++ [newDraftVoucher input newVoucherId now]
              entries := db.entries ++ es.map (fun e => e.toRow newVoucherId) }
            (newDraftVoucher input newVoucherId now).id =
          es.map (fun e => e.toRow newVoucherId) := by
        show (db.entries ++ es.map (fun e => e.toRow newVoucherId)).filter
          (fun e => e.voucherId == newVoucherId) = _
        rw [List.filter_append, hnilfilter, filter_toRow_self, List.nil_append]
      refine ⟨?_, ?_, ?_⟩
      · rw [hent]
        simpa using generated_length hgen
      · rw [hent, rowDebitTotal_toRow, rowCreditTotal_toRow]
        exact generate_ok_eps _ _ hgen
      · intro hp
        exact absurd hp (by simp [newDraftVoucher])

theorem inv_update {db db2 : DB} {voucherId : String} {input : UpdateDraftVoucherInput}
    {r : UpdateResult} (hinv : LedgerInvariant db)
    (h : updateDraftVoucher db voucherId input = .ok (db2, r)) :
    LedgerInvariant db2 := by
  obtain ⟨v, es, hv, hd, hgen, hbal, hr, hdbeq⟩ := update_ok_elim h
  subst hdbeq
  obtain ⟨hnd, hfk, hgood⟩ := hinv
  have hfid : ∀ w : Voucher,
      ((if w.id == voucherId then
          { w with voucherDate := input.voucherDate, narration := input.narration }
        else w) : Voucher).id = w.id := by
    intro w
    by_cases hc : w.id == voucherId <;> simp [hc]
  have hvm := List.mem_of_find?_eq_some hv
  have hvid : v.id = voucherId := by simpa using List.find?_some hv
  refine ⟨?_, ?_, ?_⟩
  · rw [map_map_id _ _ hfid]
    exact hnd
  · intro e he
    rcases List.mem_append.mp he with he1 | he2
    · obtain ⟨w, hw, hwe⟩ := hfk e (List.mem_of_mem_filter he1)
      exact ⟨_, List.mem_map_of_mem _ hw, (hfid w).trans hwe⟩
    · obtain ⟨g, hg, rfl⟩ := List.mem_map.mp he2
      exact ⟨_, List.mem_map_of_mem _ hvm, (hfid v).trans hvid⟩
  · intro w2 hw2
    obtain ⟨w, hw, rfl⟩ := List.mem_map.mp hw2
    by_cases hcase : w.id = voucherId
    · have hwv : w = v := nodup_id_unique hnd hw hvm (hcase.trans hvid.symm)
      subst hwv
      have hent : voucherEntries
          { db with
              vouchers := db.vouchers.map (fun w =>
                if w.id == voucherId then
                  { w with voucherDate := input.voucherDate, narration := input.narration }
                else w)
              entries := db.entries.filter (fun e => !(e.voucherId == voucherId)) ++
                es.map (fun e => e.toRow voucherId) }
            ((if w.id == voucherId then
                { w with voucherDate := input.voucherDate, narration := input.narration }
              else w) : Voucher).id =
          es.map (fun e => e.toRow voucherId) := by
        rw [hfid w, hcase]
        show (db.entries.filter (fun e => !(e.voucherId == voucherId)) ++
          es.map (fun e => e.toRow voucherId)).filter
            (fun e => e.voucherId == voucherId) = _
        rw [List.filter_append, filter_not_then_self, filter_toRow_self, List.nil_append]
      have hstatus : ((if w.id == voucherId then
          { w with voucherDate := input.voucherDate, narration := input.narration }
        else w) : Voucher).status = w.status := by
        by_cases hc : w.id == voucherId <;> simp [hc]
      refine ⟨?_, ?_, ?_⟩
      · rw [hent]
        simpa using generated_length hgen
      · rw [hent, rowDebitTotal_toRow, rowCreditTotal_toRow, hbal, sub_self]
        exact ratAbs_zero_le_eps
      · intro hp
        rw [hstatus, hd] at hp
        exact absurd hp (by simp)
    · have hfw : ((if w.id == voucherId then
          { w with voucherDate := input.voucherDate, narration := input.narration }
        else w) : Voucher) = w := by simp [hcase]
      rw [hfw]
      have hent : voucherEntries
          { db with
              vouchers := db.vouchers.map (fun w =>
                if w.id == voucherId then
                  { w with voucherDate := input.voucherDate, narration := input.narration }
                else w)
              entries := db.entries.filter (fun e => !(e.voucherId == voucherId)) ++
                es.map (fun e => e.toRow voucherId) } w.id =
          voucherEntries db w.id := by
        show (db.entries.filter (fun e => !(e.voucherId == voucherId)) ++
          es.map (fun e => e.toRow voucherId)).filter (fun e => e.voucherId == w.id) = _
        rw [List.filter_append, filter_not_then voucherId w.id hcase,
          filter_toRow_ne es voucherId w.id (fun hc => hcase hc.symm), List.append_nil]
        rfl
      exact goodVoucher_of_eq hent rfl (hgood w hw)

theorem inv_delete {db db2 : DB} {voucherId : String} {r : Bool}
    (hinv : LedgerInvariant db)
    (h : deleteDraftVoucher db voucherId = .ok (db2, r)) :
    LedgerInvariant db2 := by
  obtain ⟨v, hv, hd, hdbeq⟩ := delete_ok_elim h
  subst hdbeq
  obtain ⟨hnd, hfk, hgood⟩ := hinv
  refine ⟨?_, ?_, ?_⟩
  · exact List.Nodup.sublist
      (List.Sublist.map _ (List.filter_sublist db.vouchers)) hnd
  · intro e he
    have he2 := List.mem_of_mem_filter he
    have hene : (e.voucherId == voucherId) = false := by
      have := List.of_mem_filter he
      simpa using this
    obtain ⟨w, hw, hwe⟩ := hfk e he2
    refine ⟨w, List.mem_filter.mpr ⟨hw, ?_⟩, hwe⟩
    simp only [hwe, hene, Bool.not_false]
  · intro w hw
    have hw2 := List.mem_of_mem_filter hw
    have hwid : (w.id == voucherId) = false := by
      have := List.of_mem_filter hw
      simpa using this
    have hwid2 : w.id ≠ voucherId := by simpa using hwid
    have hent : voucherEntries
        { db with
            vouchers := db.vouchers.filter (fun v => !(v.id == voucherId))
            entries := db.entries.filter (fun e => !(e.voucherId == voucherId)) } w.id =
        voucherEntries db w.id := by
      show (db.entries.filter (fun e => !(e.voucherId == voucherId))).filter
        (fun e => e.voucherId == w.id) = _
      rw [filter_not_then voucherId w.id hwid2]
      rfl
    exact goodVoucher_of_eq hent rfl (hgood w hw2)

theorem inv_post {db db2 : DB} {voucherId : String} {r : PostResult}
    (hinv : LedgerInvariant db)
    (h : postVoucher db voucherId = .ok (db2, r)) :
    LedgerInvariant db2 := by
  obtain ⟨v, hv, hd, hlen, hpos, hbal, hr, hdbeq⟩ := post_ok_elim h
  subst hdbeq
  obtain ⟨hnd, hfk, hgood⟩ := hinv
  have hfid : ∀ w : Voucher,
      ((if w.id == voucherId then
          { w with status := .POSTED, voucherNumber := some r.voucherNumber }
        else w) : Voucher).id = w.id := by
    intro w
    by_cases hc : w.id == voucherId <;> simp [hc]
  have hvm := List.mem_of_find?_eq_some hv
  have hvid : v.id = voucherId := by simpa using List.find?_some hv
  refine ⟨?_, ?_, ?_⟩
  · rw [markPosted, map_map_id _ _ hfid]
    exact hnd
  · intro e he
    obtain ⟨w, hw, hwe⟩ := hfk e he
    exact ⟨_, List.mem_map_of_mem _ hw, (hfid w).trans hwe⟩
  · intro w2 hw2
    obtain ⟨w, hw, rfl⟩ := List.mem_map.mp hw2
    have hent : ∀ x, voucherEntries (markPosted db voucherId r.voucherNumber) x =
        voucherEntries db x := fun x => rfl
    by_cases hcase : w.id = voucherId
    · have hwv : w = v := nodup_id_unique hnd hw hvm (hcase.trans hvid.symm)
      subst hwv
      have hup : ((if w.id == voucherId then
          { w with status := .POSTED, voucherNumber := some r.voucherNumber }
        else w) : Voucher) =
          { w with status := .POSTED, voucherNumber := some r.voucherNumber } := by
        simp [hcase]
      rw [hup]
      refine ⟨?_, ?_, ?_⟩
      · rw [hent]
        show 2 ≤ (voucherEntries db w.id).length
        rw [hcase]
        exact hlen
      · rw [hent]
        show ratAbs (rowDebitTotal (voucherEntries db w.id) -
          rowCreditTotal (voucherEntries db w.id)) ≤ epsilon
        rw [hcase, hbal, sub_self]
        exact ratAbs_zero_le_eps
      · intro _
        rw [hent]
        show rowDebitTotal (voucherEntries db w.id) =
            rowCreditTotal (voucherEntries db w.id) ∧
          ∀ e ∈ voucherEntries db w.id, 0 < e.amount
        rw [hcase]
        exact ⟨hbal, hpos⟩
    · have hup : ((if w.id == voucherId then
          { w with status := .POSTED, voucherNumber := some r.voucherNumber }
        else w) : Voucher) = w := by
        simp [hcase]
      rw [hup]
      exact goodVoucher_of_eq (hent w.id) rfl (hgood w hw)

theorem reachable_invariant {db : DB} (h : Reachable db) : LedgerInvariant db := by
  induction h with
  | seed accounts =>
    refine ⟨by simp [emptyLedger], ?_, ?_⟩
    · intro e he
      simp [emptyLedger] at he
    · intro v hv
      simp [emptyLedger] at hv
  | create hre hfresh hok ih => exact inv_create ih hfresh hok
  | update hre hok ih => exact inv_update ih hok
  | delete hre hok ih => exact inv_delete ih hok
  | post hre hok ih => exact inv_post ih hok

theorem find?_append_of_none {l1 l2 : List Voucher} {p : Voucher → Bool}
    (h : l1.find? p = none) : (l1 ++ l2).find? p = l2.find? p := by
  induction l1 with
  | nil => rfl
  | cons a rest ih =>
    rw [List.find?_cons] at h
    cases hp : p a with
    | true =>
      rw [hp] at h
      exact Option.noConfusion h
    | false =>
      rw [hp] at h
      rw [List.cons_append, List.find?_cons, hp]
      exact ih h

theorem beq_side_dd : (EntrySide.DEBIT == EntrySide.DEBIT) = true := rfl

theorem beq_side_dc : (EntrySide.DEBIT == EntrySide.CREDIT) = false := rfl

theorem beq_side_cd : (EntrySide.CREDIT == EntrySide.DEBIT) = false := rfl

theorem beq_side_cc : (EntrySide.CREDIT == EntrySide.CREDIT) = true := rfl

/-! ## Claim theorems -/

/-- The sequence number the specification promises: the maximum
sequence number among already-POSTED vouchers sharing (company,
voucher type) plus one, or `1` when no such POSTED voucher exists. -/
def claimNextNumber (db : DB) (companyId voucherTypeId : String) : Int :=
  match lastPostedNumber db companyId voucherTypeId with
  | none => 1
  | some m => m + 1

theorem claimNextNumber_eq (db : DB) (companyId voucherTypeId : String) :
    claimNextNumber db companyId voucherTypeId =
      (lastPostedNumber db companyId voucherTypeId).getD 0 + 1 := by
  rw [claimNextNumber]
  cases h : lastPostedNumber db companyId voucherTypeId <;> simp

/-- C1: for every voucher in status DRAFT with valid entries (at least
two, all strictly positive, debit total equal to credit total),
`post(voucherId)` assigns it the sequence number equal to the maximum
sequence number among already-POSTED vouchers sharing the same
(company, voucher type) plus one — or `1` if no such POSTED voucher
exists — and returns that number together with status POSTED. -/
theorem post_assigns_next_sequence (db : DB) (voucherId : String) (v : Voucher)
    (hv : findVoucherRow db voucherId = some v) (hd : v.status = .DRAFT)
    (hlen : 2 ≤ (voucherEntries db voucherId).length)
    (hpos : ∀ e ∈ voucherEntries db voucherId, 0 < e.amount)
    (hbal : rowDebitTotal (voucherEntries db voucherId) =
      rowCreditTotal (voucherEntries db voucherId)) :
    ∃ db2,
      postVoucher db voucherId =
        .ok (db2, { voucherId := voucherId
                    voucherNumber := claimNextNumber db v.companyId v.voucherTypeId
                    status := .POSTED }) ∧
      findVoucherRow db2 voucherId =
        some { v with
                status := .POSTED
                voucherNumber := some (claimNextNumber db v.companyId v.voucherTypeId) } := by
  rw [claimNextNumber_eq]
  refine ⟨markPosted db voucherId
    ((lastPostedNumber db v.companyId v.voucherTypeId).getD 0 + 1), ?_, ?_⟩
  · exact post_ok_intro hv hd hlen hpos hbal
  · rw [findVoucherRow_markPosted, hv]
    rfl

/-- C2: `post(voucherId)` fails with `NotFoundError` when no voucher
with that id exists, with `InvalidStateError` when the voucher's status
is not DRAFT, and with `UnbalancedEntriesError` when the voucher has
fewer than 2 entries, any entry amount is not strictly positive, or the
debit and credit totals are not exactly equal (no epsilon at post
time); in every failure case the store — the voucher and its entries —
is unchanged. -/
theorem post_failure_modes (db : DB) (voucherId : String) :
    (findVoucherRow db voucherId = none →
      runPost db voucherId = (db, .error .voucherNotFound)) ∧
    (∀ v, findVoucherRow db voucherId = some v → v.status ≠ .DRAFT →
      runPost db voucherId = (db, .error .onlyDraftAllowed)) ∧
    (∀ v, findVoucherRow db voucherId = some v → v.status = .DRAFT →
      ((voucherEntries db voucherId).length < 2 ∨
        (∃ e ∈ voucherEntries db voucherId, e.amount ≤ 0) ∨
        rowDebitTotal (voucherEntries db voucherId) ≠
          rowCreditTotal (voucherEntries db voucherId)) →
      ∃ err, IsUnbalancedEntriesError err ∧
        runPost db voucherId = (db, .error err)) := by
  refine ⟨?_, ?_, ?_⟩
  · intro h
    rw [runPost, post_notFound h]
  · intro v hv hs
    rw [runPost, post_nondraft hv hs]
  · intro v hv hd hcases
    by_cases hlen : (voucherEntries db voucherId).length < 2
    · exact ⟨.atLeastTwoEntries, Or.inl rfl, by rw [runPost, post_tooFew hv hd hlen]⟩
    · by_cases hex : ∃ e ∈ voucherEntries db voucherId, e.amount ≤ 0
      · exact ⟨.entryAmountNotPositive, Or.inr (Or.inl rfl),
          by rw [runPost, post_negAmount hv hd hlen hex]⟩
      · have hpos : ∀ e ∈ voucherEntries db voucherId, 0 < e.amount := by
          push_neg at hex
          exact hex
        have hbal : rowDebitTotal (voucherEntries db voucherId) ≠
            rowCreditTotal (voucherEntries db voucherId) := by
          rcases hcases with hc | hc | hc
          · exact absurd hc hlen
          · exact absurd hc hex
          · exact hc
        exact ⟨.debitCreditMismatch, Or.inr (Or.inr (Or.inl rfl)),
          by rw [runPost, post_mismatch hv hd hlen hpos hbal]⟩

/-- C3: after a successful post on a voucher, every subsequent post,
updateDraft and deleteDraft call on that same voucher fails with
`InvalidStateError` and leaves the store unchanged (so the voucher's
header and entries are never mutated by those calls); in particular
calling post twice yields success exactly once.  The successful post
itself never touches the entry table. -/
theorem posted_voucher_immutable (db db2 : DB) (voucherId : String) (r : PostResult)
    (h : postVoucher db voucherId = .ok (db2, r)) :
    runPost db2 voucherId = (db2, .error .onlyDraftAllowed) ∧
    (∀ input, runUpdate db2 voucherId input = (db2, .error .onlyDraftAllowed)) ∧
    runDelete db2 voucherId = (db2, .error .onlyDraftAllowed) ∧
    db2.entries = db.entries := by
  obtain ⟨v, hv, hd, hlen, hpos, hbal, hr, hdbeq⟩ := post_ok_elim h
  subst hdbeq
  have hfind : findVoucherRow (markPosted db voucherId r.voucherNumber) voucherId =
      some { v with status := .POSTED, voucherNumber := some r.voucherNumber } := by
    rw [findVoucherRow_markPosted, hv]
    rfl
  have hs : ({ v with status := .POSTED, voucherNumber := some r.voucherNumber } :
      Voucher).status ≠ .DRAFT := by
    simp
  refine ⟨?_, ?_, ?_, rfl⟩
  · rw [runPost, post_nondraft hfind hs]
  · intro input
    rw [runUpdate, update_nondraft hfind hs]
  · rw [runDelete, delete_nondraft hfind hs]

/-- C4 (amended): for every supported non-JOURNAL (kind, subKind) pair
the generated entry set satisfies Σdebit = Σcredit exactly, and the
engine never rounds or splits the amount: it returns exactly two
entries, each carrying the full transaction amount.  For JOURNAL,
however, the caller-supplied entries are only guaranteed to balance
within the epsilon 0.001, not exactly. -/
theorem template_balance_amended (input : VoucherTemplateInput) (es : List GeneratedEntry)
    (h : generateEntriesFromTemplate input = .ok es) :
    (input.voucherType ≠ .JOURNAL →
      debitTotal es = creditTotal es ∧ es.length = 2 ∧
        ∀ e ∈ es, e.amount = input.totalAmount) ∧
    ratAbs (debitTotal es - creditTotal es) ≤ epsilon := by
  refine ⟨?_, generate_ok_eps input es h⟩
  intro hkind
  obtain ⟨da, ca, rfl⟩ := generate_nonjournal_shape input hkind es h
  obtain ⟨hd, hc⟩ := pair_entries_balanced da ca input.totalAmount
  refine ⟨hd.trans hc.symm, rfl, ?_⟩
  intro e he
  rcases List.mem_cons.mp he with rfl | he2
  · rfl
  · rcases List.mem_cons.mp he2 with rfl | he3
    · rfl
    · simp at he3

/-- An all-blank control-accounts record for concrete template
inputs. -/
def noAccounts : TemplateAccounts :=
  { salesAccountId := ""
    purchaseExpenseAccountId := ""
    accountsReceivableId := ""
    accountsPayableId := ""
    ownerCapitalId := ""
    cashAccountId := ""
    bankAccountId := "" }

/-- A JOURNAL input whose caller-supplied entries are off by 0.0005:
within the engine's epsilon, yet not exactly balanced. -/
def unbalancedJournalInput : VoucherTemplateInput :=
  { voucherType := .JOURNAL
    subType := "MANUAL_JOURNAL"
    totalAmount := 0
    journalEntries := some
      [⟨"acct-a", .DEBIT, 2000001 / 2000⟩, ⟨"acct-b", .CREDIT, 1000⟩]
    accounts := noAccounts }

/-- C4 (counterexample): a JOURNAL input whose entries differ by
0.0005 passes the engine (which only checks the 0.001 epsilon) and is
returned with Σdebit ≠ Σcredit — refuting the claim that every
returned entry set, including JOURNAL, balances exactly. -/
theorem template_exact_balance_counterexample :
    generateEntriesFromTemplate unbalancedJournalInput =
      .ok [⟨"acct-a", .DEBIT, 2000001 / 2000⟩, ⟨"acct-b", .CREDIT, 1000⟩] ∧
    debitTotal [⟨"acct-a", .DEBIT, (2000001 : ℚ) / 2000⟩, ⟨"acct-b", .CREDIT, 1000⟩] ≠
      creditTotal [⟨"acct-a", .DEBIT, (2000001 : ℚ) / 2000⟩, ⟨"acct-b", .CREDIT, 1000⟩] := by
  constructor
  · norm_num [unbalancedJournalInput, generateEntriesFromTemplate, journalTemplate,
      debitTotal, creditTotal, List.filter_cons, beq_side_dd, beq_side_dc,
      beq_side_cd, beq_side_cc, ratAbs, epsilon]
  · norm_num [debitTotal, creditTotal, List.filter_cons, beq_side_dd, beq_side_dc,
      beq_side_cd, beq_side_cc]

/-- Mirror of the claim's (amended) success condition for the template
engine, written from the spec's words: every required parameter is
present (payment account for CASH_SALE, CASH_PURCHASE, RECEIPT and all
PAYMENT sub-kinds; expense account for EXPENSE_PAYMENT; a journal list
of at least 2 lines for JOURNAL), the subKind is recognized for the
kind, and — the amendment — a JOURNAL list balances within 0.001. -/
def templateOkSpec (input : VoucherTemplateInput) : Bool :=
  match input.voucherType with
  | .SALE =>
    if input.subType = "CASH_SALE" then jsPresent input.paymentAccountId
    else decide (input.subType = "CREDIT_SALE")
  | .PURCHASE =>
    if input.subType = "CASH_PURCHASE" then jsPresent input.paymentAccountId
    else decide (input.subType = "CREDIT_PURCHASE")
  | .RECEIPT => jsPresent input.paymentAccountId
  | .PAYMENT =>
    jsPresent input.paymentAccountId &&
      (decide (input.subType = "VENDOR_PAYMENT") ||
        (decide (input.subType = "EXPENSE_PAYMENT") && jsPresent input.expenseAccountId) ||
        decide (input.subType = "OWNER_WITHDRAWAL"))
  | .CONTRA =>
    decide (input.subType = "CASH_TO_BANK") || decide (input.subType = "BANK_TO_CASH")
  | .JOURNAL =>
    match input.journalEntries with
    | none => false
    | some js =>
      decide (2 ≤ js.length) &&
        decide (ratAbs (debitTotal js - creditTotal js) ≤ epsilon)

/-- C7 (amended): generation succeeds exactly when every required
parameter is present and the subKind is recognized for the kind —
and, in the JOURNAL case, additionally only when the caller-supplied
entries balance within 0.001; the original claim omitted the JOURNAL
balance condition. -/
theorem template_error_amended (input : VoucherTemplateInput) :
    (generateEntriesFromTemplate input).isOk = templateOkSpec input := by
  cases hk : input.voucherType with
  | SALE =>
    simp only [generateEntriesFromTemplate, templateOkSpec, hk, saleTemplate]
    split_ifs <;> simp_all [Except.isOk, Except.toBool]
  | PURCHASE =>
    simp only [generateEntriesFromTemplate, templateOkSpec, hk, purchaseTemplate]
    split_ifs <;> simp_all [Except.isOk, Except.toBool]
  | RECEIPT =>
    simp only [generateEntriesFromTemplate, templateOkSpec, hk, receiptTemplate]
    split_ifs <;> simp_all [Except.isOk, Except.toBool]
  | PAYMENT =>
    simp only [generateEntriesFromTemplate, templateOkSpec, hk, paymentTemplate]
    split_ifs <;> simp_all [Except.isOk, Except.toBool]
  | CONTRA =>
    simp only [generateEntriesFromTemplate, templateOkSpec, hk, contraTemplate]
    split_ifs <;> simp_all [Except.isOk, Except.toBool]
  | JOURNAL =>
    cases hj : input.journalEntries with
    | none =>
      simp [generateEntriesFromTemplate, templateOkSpec, hk, journalTemplate, hj,
        Except.isOk, Except.toBool]
    | some js =>
      simp only [generateEntriesFromTemplate, templateOkSpec, hk, journalTemplate, hj]
      split_ifs with h1 h2 <;> simp_all [Except.isOk, Except.toBool]

/-- A JOURNAL input with two well-formed lines summing DEBIT 1000
against CREDIT 999. -/
def grosslyUnbalancedJournalInput : VoucherTemplateInput :=
  { voucherType := .JOURNAL
    subType := "MANUAL_JOURNAL"
    totalAmount := 0
    journalEntries := some
      [⟨"acct-a", .DEBIT, 1000⟩, ⟨"acct-b", .CREDIT, 999⟩]
    accounts := noAccounts }

/-- C7 (counterexample): a JOURNAL input whose journal list has the
required 2 lines — no required parameter missing, subKind irrelevant
for JOURNAL — still fails, because the entries do not balance within
0.001; so "missing required parameter or unrecognized subKind" does
not exhaust the error cases. -/
theorem template_error_counterexample :
    generateEntriesFromTemplate grosslyUnbalancedJournalInput =
      .error .journalUnbalanced ∧
    (grosslyUnbalancedJournalInput.journalEntries.map List.length) = some 2 := by
  constructor
  · norm_num [grosslyUnbalancedJournalInput, generateEntriesFromTemplate, journalTemplate,
      debitTotal, creditTotal, List.filter_cons, beq_side_dd, beq_side_dc,
      beq_side_cd, beq_side_cc, ratAbs, epsilon]
  · rfl

/-- C10: for kind JOURNAL with a caller-supplied list of at least 2
entries whose totals differ by at most 0.001,
`generateEntriesFromTemplate` returns exactly the caller's list — same
entries, same amounts and sides, same order — with no normalization,
reordering or filtering. -/
theorem journal_passthrough (input : VoucherTemplateInput) (js : List GeneratedEntry)
    (hk : input.voucherType = .JOURNAL) (hj : input.journalEntries = some js)
    (hlen : 2 ≤ js.length)
    (hbal : ratAbs (debitTotal js - creditTotal js) ≤ epsilon) :
    generateEntriesFromTemplate input = .ok js := by
  simp only [generateEntriesFromTemplate, hk, journalTemplate, hj]
  rw [if_neg (by omega), if_neg (not_lt.mpr hbal)]

/-- C9: for every templated (non-JOURNAL) kind, createDraft places no
constraint on the transaction amount: with a zero or negative total
amount the draft voucher and its two entries (each carrying that
non-positive amount) are created successfully, and a subsequent post on
that voucher always fails with the entry-amount-must-be-positive
`UnbalancedEntriesError`. -/
theorem nonpositive_draft_then_post_fails (db : DB) (input : CreateDraftVoucherInput)
    (newVoucherId : String) (now : Int) (es : List GeneratedEntry)
    (hfreshV : ∀ w ∈ db.vouchers, w.id ≠ newVoucherId)
    (hfreshE : ∀ e ∈ db.entries, e.voucherId ≠ newVoucherId)
    (hkind : input.voucherType ≠ .JOURNAL)
    (hamt : input.totalAmount ≤ 0)
    (hgen : generateEntriesFromTemplate input.templateArgs = .ok es) :
    ∃ db2 v, createDraftVoucher db input newVoucherId now = .ok (db2, v) ∧
      v.status = .DRAFT ∧
      (voucherEntries db2 newVoucherId).length = 2 ∧
      (∀ e ∈ voucherEntries db2 newVoucherId, e.amount = input.totalAmount) ∧
      runPost db2 newVoucherId = (db2, .error .entryAmountNotPositive) := by
  obtain ⟨da, ca, hes⟩ := generate_nonjournal_shape input.templateArgs hkind es hgen
  rw [show input.templateArgs.totalAmount = input.totalAmount from rfl] at hes
  subst hes
  have hcreate := create_ok_intro db input newVoucherId now _ hgen
  have hnil : db.entries.filter (fun e => e.voucherId == newVoucherId) = [] := by
    rw [List.filter_eq_nil_iff]
    intro e he
    simpa using hfreshE e he
  refine ⟨_, _, hcreate, rfl, ?_, ?_, ?_⟩
  all_goals
    have hent : voucherEntries
        { db with
            vouchers := db.vouchers ++ [newDraftVoucher input newVoucherId now]
            entries := db.entries ++
              ([⟨da, .DEBIT, input.totalAmount⟩,
                ⟨ca, .CREDIT, input.totalAmount⟩] : List GeneratedEntry).map
                  (fun e => e.toRow newVoucherId) } newVoucherId =
        ([⟨da, .DEBIT, input.totalAmount⟩,
          ⟨ca, .CREDIT, input.totalAmount⟩] : List GeneratedEntry).map
            (fun e => e.toRow newVoucherId) := by
      show (db.entries ++ _).filter (fun e => e.voucherId == newVoucherId) = _
      rw [List.filter_append, hnil, filter_toRow_self, List.nil_append]
  · rw [hent]
    rfl
  · intro e he
    rw [hent] at he
    rcases List.mem_cons.mp he with rfl | he2
    · rfl
    · rcases List.mem_cons.mp he2 with rfl | he3
      · rfl
      · simp at he3
  · have hnone : db.vouchers.find? (fun v => v.id == newVoucherId) = none := by
      rw [List.find?_eq_none]
      intro w hw
      simpa using hfreshV w hw
    have hv2 : findVoucherRow
        { db with
            vouchers := db.vouchers ++ [newDraftVoucher input newVoucherId now]
            entries := db.entries ++
              ([⟨da, .DEBIT, input.totalAmount⟩,
                ⟨ca, .CREDIT, input.totalAmount⟩] : List GeneratedEntry).map
                  (fun e => e.toRow newVoucherId) } newVoucherId =
        some (newDraftVoucher input newVoucherId now) := by
      show (db.vouchers ++ [newDraftVoucher input newVoucherId now]).find?
        (fun v => v.id == newVoucherId) = _
      rw [find?_append_of_none hnone]
      simp [newDraftVoucher]
    have hlen2 : ¬ (voucherEntries
        { db with
            vouchers := db.vouchers ++ [newDraftVoucher input newVoucherId now]
            entries := db.entries ++
              ([⟨da, .DEBIT, input.totalAmount⟩,
                ⟨ca, .CREDIT, input.totalAmount⟩] : List GeneratedEntry).map
                  (fun e => e.toRow newVoucherId) } newVoucherId).length < 2 := by
      rw [hent]
      simp
    have hex : ∃ e ∈ voucherEntries
        { db with
            vouchers := db.vouchers ++ [newDraftVoucher input newVoucherId now]
            entries := db.entries ++
              ([⟨da, .DEBIT, input.totalAmount⟩,
                ⟨ca, .CREDIT, input.totalAmount⟩] : List GeneratedEntry).map
                  (fun e => e.toRow newVoucherId) } newVoucherId, e.amount ≤ 0 := by
      rw [hent]
      exact ⟨({ accountId := da, side := EntrySide.DEBIT, amount := input.totalAmount } :
        GeneratedEntry).toRow newVoucherId, by simp, hamt⟩
    rw [runPost, post_negAmount hv2 rfl hlen2 hex]

/-- A create-draft input whose caller-supplied JOURNAL entries are off
by 0.0005. -/
def unbalancedJournalCreate : CreateDraftVoucherInput :=
  { voucherType := .JOURNAL
    subType := some ("MANUAL_JOURNAL")
    totalAmount := 0
    journalEntries := some
      [⟨"acct-a", .DEBIT, 2000001 / 2000⟩, ⟨"acct-b", .CREDIT, 1000⟩]
    accounts := noAccounts
    companyId := "c1"
    voucherTypeId := "t1"
    voucherDate := 0 }

/-- C5 (counterexample): creating a draft from JOURNAL entries whose
totals differ by the nonzero amount 0.0005 succeeds, and the persisted
entries are unbalanced — refuting zero-tolerance validation (and the
claim that nothing is persisted) for nonzero differences within the
0.001 epsilon. -/
theorem create_zero_tolerance_counterexample :
    ((runCreate (emptyLedger []) unbalancedJournalCreate ("v1") 0).2.isOk = true) ∧
    rowDebitTotal ((runCreate (emptyLedger []) unbalancedJournalCreate ("v1") 0).1.entries) ≠
      rowCreditTotal
        ((runCreate (emptyLedger []) unbalancedJournalCreate ("v1") 0).1.entries) := by
  constructor <;>
    norm_num [runCreate, createDraftVoucher, unbalancedJournalCreate, emptyLedger,
      CreateDraftVoucherInput.templateArgs, generateEntriesFromTemplate, journalTemplate,
      debitTotal, creditTotal, rowDebitTotal, rowCreditTotal, GeneratedEntry.toRow,
      newDraftVoucher, List.filter_cons, beq_side_dd, beq_side_dc, beq_side_cd,
      beq_side_cc, ratAbs, epsilon, Except.isOk, Except.toBool]

/-- C5 (amended): createDraft validates the generated entries with the
tolerance 0.001, not zero: differences up to 0.001 are accepted and
persisted.  Moreover, since the template engine itself guarantees
|Σdebit − Σcredit| ≤ 0.001 on success, the create-time
`UnbalancedEntriesError` is unreachable: createDraft fails exactly when
template generation fails, and on any failure the whole unit rolls
back (no voucher header and no entries are persisted). -/
theorem create_tolerance_amended (db : DB) (input : CreateDraftVoucherInput)
    (newVoucherId : String) (now : Int) :
    ((runCreate db input newVoucherId now).2 ≠ .error .unbalancedTotals) ∧
    (∀ err, (runCreate db input newVoucherId now).2 = .error err →
      (runCreate db input newVoucherId now).1 = db) ∧
    (∀ es, generateEntriesFromTemplate input.templateArgs = .ok es →
      ratAbs (debitTotal es - creditTotal es) ≤ epsilon ∧
      (runCreate db input newVoucherId now).2 =
        .ok (newDraftVoucher input newVoucherId now)) := by
  refine ⟨?_, ?_, ?_⟩
  · cases hgen : generateEntriesFromTemplate input.templateArgs with
    | error e =>
      have hc : createDraftVoucher db input newVoucherId now = .error (.templateError e) := by
        simp [createDraftVoucher, hgen]
      rw [runCreate, hc]
      simp
    | ok es =>
      rw [runCreate, create_ok_intro db input newVoucherId now es hgen]
      simp
  · intro err herr
    rw [runCreate] at herr ⊢
    cases hc : createDraftVoucher db input newVoucherId now with
    | error e => rfl
    | ok p =>
      rw [hc] at herr
      exact absurd herr (by simp)
  · intro es hgen
    refine ⟨generate_ok_eps _ _ hgen, ?_⟩
    rw [runCreate, create_ok_intro db input newVoucherId now es hgen]

/-- A CASH_SALE create input with transaction amount 0. -/
def zeroAmountCreate : CreateDraftVoucherInput :=
  { voucherType := .SALE
    subType := some ("CASH_SALE")
    totalAmount := 0
    paymentAccountId := some ("cash-acct")
    accounts := noAccounts
    companyId := "c1"
    voucherTypeId := "t1"
    voucherDate := 0 }

/-- The store produced by creating that zero-amount draft on a seeded
store. -/
def zeroAmountDB : DB :=
  { accounts := []
    vouchers := [newDraftVoucher zeroAmountCreate ("v1") 0]
    entries := [⟨"v1", "cash-acct", .DEBIT, 0⟩, ⟨"v1", "", .CREDIT, 0⟩] }

/-- C6 (counterexample): a store reachable by a single createDraft —
a CASH_SALE of amount 0 — holds a DRAFT voucher both of whose entry
amounts are 0, refuting "every entry amount is strictly greater than 0
… including vouchers still in DRAFT status". -/
theorem draft_zero_amount_counterexample :
    Reachable zeroAmountDB ∧
    zeroAmountDB.vouchers.map (fun v => v.status) = [.DRAFT] ∧
    zeroAmountDB.entries.map (fun e => e.amount) = [0, 0] := by
  refine ⟨?_, rfl, rfl⟩
  have hne : (("cash-acct" : String).isEmpty) = false := rfl
  have hceq : createDraftVoucher (emptyLedger []) zeroAmountCreate ("v1") 0 =
      .ok (zeroAmountDB, newDraftVoucher zeroAmountCreate ("v1") 0) := by
    norm_num [createDraftVoucher, zeroAmountCreate, zeroAmountDB, emptyLedger,
      CreateDraftVoucherInput.templateArgs, generateEntriesFromTemplate, saleTemplate,
      jsPresent, hne, debitTotal, creditTotal, GeneratedEntry.toRow, newDraftVoucher,
      List.filter_cons, beq_side_dd, beq_side_dc, beq_side_cd, beq_side_cc,
      ratAbs, epsilon, noAccounts]
  exact Reachable.create (Reachable.seed [])
    (fun w hw => by simp [emptyLedger] at hw) hceq

/-- C6 (amended): every voucher reachable through the engine's
operations (create, regenerate, post, delete) has at least 2 entries
and debit and credit totals within the fixed epsilon 0.001; exact
balance and strictly positive entry amounts additionally hold for
POSTED vouchers — but not for DRAFT vouchers, whose entry amounts may
be zero or negative. -/
theorem reachable_voucher_invariant (db : DB) (h : Reachable db) :
    ∀ v ∈ db.vouchers,
      2 ≤ (voucherEntries db v.id).length ∧
      ratAbs (rowDebitTotal (voucherEntries db v.id) -
        rowCreditTotal (voucherEntries db v.id)) ≤ epsilon ∧
      (v.status = .POSTED →
        rowDebitTotal (voucherEntries db v.id) =
          rowCreditTotal (voucherEntries db v.id) ∧
        ∀ e ∈ voucherEntries db v.id, 0 < e.amount) :=
  fun v hv => (reachable_invariant h).2.2 v hv

/-- The signed value a reported (absolute balance, side) pair stands
for: positive on `DR`, negative on `CR`. -/
def sideSigned (side : String) (amount : ℚ) : ℚ :=
  if side = "DR" then amount else -amount

theorem sideSigned_abs (x : ℚ) :
    sideSigned (if 0 ≤ x then ("DR") else ("CR")) (ratAbs x) = x := by
  by_cases h : 0 ≤ x
  · rw [if_pos h, sideSigned, if_pos rfl, ratAbs_eq_abs, abs_of_nonneg h]
  · rw [if_neg h, sideSigned, if_neg (by simp), ratAbs_eq_abs,
      abs_of_neg (not_le.mp h), neg_neg]

/-- C8: for the account book with a window start, the opening balance
equals the signed sum (debit positive, credit negative) of all POSTED
entries on that account dated strictly before the window start; the
transaction rows are exactly the window entries in voucher-date order
tie-broken by creation order; each row's running balance is the
opening balance plus the cumulative signed sum of the window entries
up to and including that row; and the closing balance equals the
opening balance plus the signed sum of all window entries. -/
theorem account_book_balances (db : DB) (companyId role : String) (fromDate : Int)
    (toDate : Option Int) (account : Account) (book : Book)
    (hacct : db.accounts.find? (fun a => a.companyId == companyId && a.role == role) =
      some account)
    (hbook : getAccountBook db companyId role (some fromDate) toDate = .ok book) :
    sideSigned book.openingBalanceSide book.openingBalance =
      ((openingEntries db companyId account.id fromDate).map signedAmount).sum ∧
    book.transactions.map (fun r => (r.date, r.debit, r.credit)) =
      (sortedWindow db companyId account.id (some fromDate) toDate).map
        (fun p => (p.2.voucherDate, rowDebit p, rowCredit p)) ∧
    List.Pairwise (fun a b => bookLe a b = true)
      (sortedWindow db companyId account.id (some fromDate) toDate) ∧
    (sortedWindow db companyId account.id (some fromDate) toDate).Perm
      (windowRows db companyId account.id (some fromDate) toDate) ∧
    (∀ i (hi : i < book.transactions.length),
      rowSigned (book.transactions.get ⟨i, hi⟩) =
        ((openingEntries db companyId account.id fromDate).map signedAmount).sum +
          (((sortedWindow db companyId account.id (some fromDate) toDate).take
            (i + 1)).map pairSigned).sum) ∧
    sideSigned book.closingBalanceSide book.closingBalance =
      ((openingEntries db companyId account.id fromDate).map signedAmount).sum +
        ((windowRows db companyId account.id (some fromDate) toDate).map pairSigned).sum := by
  simp only [getAccountBook, hacct] at hbook
  have hb := Except.ok.inj hbook
  subst hb
  have hopen : signedFold (openingEntries db companyId account.id fromDate) =
      ((openingEntries db companyId account.id fromDate).map signedAmount).sum :=
    signedFold_eq_sum _
  refine ⟨?_, ?_, sortedWindow_sorted db companyId account.id (some fromDate) toDate,
    sortedWindow_perm db companyId account.id (some fromDate) toDate, ?_, ?_⟩
  · show sideSigned
        (if 0 ≤ signedFold (openingEntries db companyId account.id fromDate)
          then ("DR") else ("CR"))
        (ratAbs (signedFold (openingEntries db companyId account.id fromDate))) = _
    rw [sideSigned_abs, hopen]
  · show (bookRows (signedFold (openingEntries db companyId account.id fromDate))
        (sortedWindow db companyId account.id (some fromDate) toDate)).map
          (fun r => (r.date, r.debit, r.credit)) = _
    exact bookRows_map_data _ _
  · show ∀ i (hi : i <
        (bookRows (signedFold (openingEntries db companyId account.id fromDate))
          (sortedWindow db companyId account.id (some fromDate) toDate)).length),
      rowSigned ((bookRows (signedFold (openingEntries db companyId account.id fromDate))
        (sortedWindow db companyId account.id (some fromDate) toDate)).get ⟨i, hi⟩) =
        ((openingEntries db companyId account.id fromDate).map signedAmount).sum +
          (((sortedWindow db companyId account.id (some fromDate) toDate).take
            (i + 1)).map pairSigned).sum
    intro i hi
    rw [bookRows_get_signed _ _ i hi, hopen]
  · show sideSigned
        (if 0 ≤ runningAfter (signedFold (openingEntries db companyId account.id fromDate))
            (sortedWindow db companyId account.id (some fromDate) toDate)
          then ("DR") else ("CR"))
        (ratAbs (runningAfter (signedFold (openingEntries db companyId account.id fromDate))
          (sortedWindow db companyId account.id (some fromDate) toDate))) = _
    rw [sideSigned_abs, runningAfter_eq_sum, hopen]
    congr 1
    exact List.Perm.sum_eq (List.Perm.map pairSigned
      (sortedWindow_perm db companyId account.id (some fromDate) toDate))

/-! ## Concrete witnesses -/

/-- A DRAFT voucher with two balanced entries of 5. -/
def seqDraft : Voucher :=
  { id := "d1"
    companyId := "c1"
    voucherTypeId := "t1"
    status := .DRAFT
    voucherDate := 5
    narration := none
    partyId := none
    subType := none
    voucherNumber := none
    createdAt := 0 }

/-- A POSTED sibling voucher carrying sequence number 7. -/
def seqPosted : Voucher :=
  { id := "p1"
    companyId := "c1"
    voucherTypeId := "t1"
    status := .POSTED
    voucherDate := 3
    narration := none
    partyId := none
    subType := none
    voucherNumber := some 7
    createdAt := 0 }

/-- A store holding the draft, its entries, and the posted sibling. -/
def seqDB : DB :=
  { accounts := []
    vouchers := [seqDraft, seqPosted]
    entries := [⟨"d1", "a1", .DEBIT, 5⟩, ⟨"d1", "a2", .CREDIT, 5⟩] }

theorem post_assigns_next_sequence_witness :
    ∃ db2,
      postVoucher seqDB ("d1") =
        .ok (db2, { voucherId := "d1"
                    voucherNumber := claimNextNumber seqDB seqDraft.companyId
                      seqDraft.voucherTypeId
                    status := .POSTED }) ∧
      findVoucherRow db2 ("d1") =
        some { seqDraft with
                status := .POSTED
                voucherNumber := some (claimNextNumber seqDB seqDraft.companyId
                  seqDraft.voucherTypeId) } :=
  post_assigns_next_sequence seqDB ("d1") seqDraft
    (by norm_num [findVoucherRow, seqDB, seqDraft, List.find?])
    rfl
    (by norm_num [voucherEntries, seqDB, List.filter_cons])
    (by
      intro e he
      norm_num [voucherEntries, seqDB, List.filter_cons] at he
      rcases he with rfl | rfl <;> norm_num)
    (by norm_num [voucherEntries, seqDB, rowDebitTotal, rowCreditTotal,
      List.filter_cons, beq_side_dd, beq_side_dc, beq_side_cd, beq_side_cc])

theorem post_failure_modes_witness :
    runPost (emptyLedger []) ("missing") = (emptyLedger [], .error .voucherNotFound) :=
  (post_failure_modes (emptyLedger []) ("missing")).1 rfl

theorem posted_voucher_immutable_witness :
    runPost (markPosted seqDB ("d1") 8) ("d1") =
      (markPosted seqDB ("d1") 8, .error .onlyDraftAllowed) :=
  (posted_voucher_immutable seqDB (markPosted seqDB ("d1") 8) ("d1")
    { voucherId := "d1", voucherNumber := 8, status := .POSTED }
    (by
      have hv : findVoucherRow seqDB ("d1") = some seqDraft := by
        norm_num [findVoucherRow, seqDB, seqDraft, List.find?]
      have hnum : (lastPostedNumber seqDB seqDraft.companyId
          seqDraft.voucherTypeId).getD 0 + 1 = 8 := by
        norm_num [lastPostedNumber, seqDB, seqDraft, seqPosted, listMaxInt,
          List.filter_cons]
      have h := post_ok_intro hv rfl
        (by norm_num [voucherEntries, seqDB, List.filter_cons])
        (by
          intro e he
          norm_num [voucherEntries, seqDB, List.filter_cons] at he
          rcases he with rfl | rfl <;> norm_num)
        (by norm_num [voucherEntries, seqDB, rowDebitTotal, rowCreditTotal,
          List.filter_cons, beq_side_dd, beq_side_dc, beq_side_cd, beq_side_cc])
      rw [h, hnum])).1

/-- A CASH_SALE template input of amount 5. -/
def cashSaleInput : VoucherTemplateInput :=
  { voucherType := .SALE
    subType := "CASH_SALE"
    totalAmount := 5
    paymentAccountId := some ("cash-acct")
    accounts := noAccounts }

theorem template_balance_amended_witness :
    ratAbs (debitTotal [⟨"cash-acct", .DEBIT, 5⟩, ⟨"", .CREDIT, 5⟩] -
      creditTotal [⟨"cash-acct", .DEBIT, 5⟩, ⟨"", .CREDIT, 5⟩]) ≤ epsilon :=
  (template_balance_amended cashSaleInput [⟨"cash-acct", .DEBIT, 5⟩, ⟨"", .CREDIT, 5⟩]
    (by
      have hne : (("cash-acct" : String).isEmpty) = false := rfl
      norm_num [generateEntriesFromTemplate, cashSaleInput, saleTemplate, jsPresent,
        hne, noAccounts])).2

/-- A CASH_SALE create-draft input of amount 5. -/
def cashSaleCreate : CreateDraftVoucherInput :=
  { voucherType := .SALE
    subType := some ("CASH_SALE")
    totalAmount := 5
    paymentAccountId := some ("cash-acct")
    accounts := noAccounts
    companyId := "c1"
    voucherTypeId := "t1"
    voucherDate := 0 }

theorem create_tolerance_amended_witness :
    ratAbs (debitTotal [⟨"cash-acct", .DEBIT, 5⟩, ⟨"", .CREDIT, 5⟩] -
      creditTotal [⟨"cash-acct", .DEBIT, 5⟩, ⟨"", .CREDIT, 5⟩]) ≤ epsilon ∧
    (runCreate (emptyLedger []) cashSaleCreate ("v1") 0).2 =
      .ok (newDraftVoucher cashSaleCreate ("v1") 0) :=
  (create_tolerance_amended (emptyLedger []) cashSaleCreate ("v1") 0).2.2
    [⟨"cash-acct", .DEBIT, 5⟩, ⟨"", .CREDIT, 5⟩]
    (by
      have hne : (("cash-acct" : String).isEmpty) = false := rfl
      norm_num [generateEntriesFromTemplate, cashSaleCreate,
        CreateDraftVoucherInput.templateArgs, saleTemplate, jsPresent, hne, noAccounts])

theorem zeroAmountDB_reachable : Reachable zeroAmountDB := by
  have hne : (("cash-acct" : String).isEmpty) = false := rfl
  have hceq : createDraftVoucher (emptyLedger []) zeroAmountCreate ("v1") 0 =
      .ok (zeroAmountDB, newDraftVoucher zeroAmountCreate ("v1") 0) := by
    norm_num [createDraftVoucher, zeroAmountCreate, zeroAmountDB, emptyLedger,
      CreateDraftVoucherInput.templateArgs, generateEntriesFromTemplate, saleTemplate,
      jsPresent, hne, debitTotal, creditTotal, GeneratedEntry.toRow, newDraftVoucher,
      List.filter_cons, beq_side_dd, beq_side_dc, beq_side_cd, beq_side_cc,
      ratAbs, epsilon, noAccounts]
  exact Reachable.create (Reachable.seed [])
    (fun w hw => by simp [emptyLedger] at hw) hceq

theorem reachable_voucher_invariant_witness :
    2 ≤ (voucherEntries zeroAmountDB (newDraftVoucher zeroAmountCreate ("v1") 0).id).length ∧
    ratAbs (rowDebitTotal (voucherEntries zeroAmountDB
        (newDraftVoucher zeroAmountCreate ("v1") 0).id) -
      rowCreditTotal (voucherEntries zeroAmountDB
        (newDraftVoucher zeroAmountCreate ("v1") 0).id)) ≤ epsilon ∧
    ((newDraftVoucher zeroAmountCreate ("v1") 0).status = .POSTED →
      rowDebitTotal (voucherEntries zeroAmountDB
          (newDraftVoucher zeroAmountCreate ("v1") 0).id) =
        rowCreditTotal (voucherEntries zeroAmountDB
          (newDraftVoucher zeroAmountCreate ("v1") 0).id) ∧
      ∀ e ∈ voucherEntries zeroAmountDB
        (newDraftVoucher zeroAmountCreate ("v1") 0).id, 0 < e.amount) :=
  reachable_voucher_invariant zeroAmountDB zeroAmountDB_reachable
    (newDraftVoucher zeroAmountCreate ("v1") 0) (by simp [zeroAmountDB])

/-- The CASH account used by the account-book witness. -/
def bookAccount : Account :=
  { id := "a1", companyId := "c1", code := "CASH", name := "Cash", role := "CASH" }

/-- A POSTED voucher dated before the report window. -/
def bookVoucherOld : Voucher :=
  { id := "pv1"
    companyId := "c1"
    voucherTypeId := "t1"
    status := .POSTED
    voucherDate := 3
    narration := none
    partyId := none
    subType := none
    voucherNumber := some 1
    createdAt := 1 }

/-- A store with one pre-window POSTED debit of 5 on the CASH
account. -/
def bookDB : DB :=
  { accounts := [bookAccount]
    vouchers := [bookVoucherOld]
    entries := [⟨"pv1", "a1", .DEBIT, 5⟩] }

/-- The account book of `bookDB` for the window starting at 10. -/
def bookResult : Book :=
  { accountId := "a1"
    accountCode := "CASH"
    accountName := "Cash"
    openingBalance := 5
    openingBalanceSide := "DR"
    transactions := []
    totalDebit := 0
    totalCredit := 0
    closingBalance := 5
    closingBalanceSide := "DR" }

theorem account_book_balances_witness :
    sideSigned bookResult.openingBalanceSide bookResult.openingBalance =
      ((openingEntries bookDB ("c1") bookAccount.id 10).map signedAmount).sum :=
  (account_book_balances bookDB ("c1") ("CASH") 10 none bookAccount bookResult
    (by norm_num [bookDB, bookAccount, List.find?])
    (by
      norm_num [getAccountBook, bookDB, bookAccount, bookVoucherOld, bookResult,
        openingEntries, postedBefore, findVoucherRow, List.find?, List.filter_cons,
        signedFold, windowRows, sortedWindow, inWindow, endOfDay, List.filterMap,
        bookRows, runningAfter, ratAbs, beq_side_dd, beq_side_dc, beq_side_cd,
        beq_side_cc])).1

theorem nonpositive_draft_then_post_fails_witness :
    ∃ db2 v, createDraftVoucher (emptyLedger []) zeroAmountCreate ("v1") 0 = .ok (db2, v) ∧
      v.status = .DRAFT ∧
      (voucherEntries db2 ("v1")).length = 2 ∧
      (∀ e ∈ voucherEntries db2 ("v1"), e.amount = zeroAmountCreate.totalAmount) ∧
      runPost db2 ("v1") = (db2, .error .entryAmountNotPositive) :=
  nonpositive_draft_then_post_fails (emptyLedger []) zeroAmountCreate ("v1") 0
    [⟨"cash-acct", .DEBIT, 0⟩, ⟨"", .CREDIT, 0⟩]
    (fun w hw => by simp [emptyLedger] at hw)
    (fun e he => by simp [emptyLedger] at he)
    (by simp [zeroAmountCreate])
    (by norm_num [zeroAmountCreate])
    (by
      have hne : (("cash-acct" : String).isEmpty) = false := rfl
      norm_num [generateEntriesFromTemplate, zeroAmountCreate,
        CreateDraftVoucherInput.templateArgs, saleTemplate, jsPresent, hne, noAccounts])

/-- A balanced two-line JOURNAL input. -/
def balancedJournalInput : VoucherTemplateInput :=
  { voucherType := .JOURNAL
    subType := "MANUAL_JOURNAL"
    totalAmount := 0
    journalEntries := some [⟨"acct-a", .DEBIT, 5⟩, ⟨"acct-b", .CREDIT, 5⟩]
    accounts := noAccounts }

theorem journal_passthrough_witness :
    generateEntriesFromTemplate balancedJournalInput =
      .ok [⟨"acct-a", .DEBIT, 5⟩, ⟨"acct-b", .CREDIT, 5⟩] :=
  journal_passthrough balancedJournalInput [⟨"acct-a", .DEBIT, 5⟩, ⟨"acct-b", .CREDIT, 5⟩]
    rfl rfl (by norm_num)
    (by norm_num [debitTotal, creditTotal, List.filter_cons, beq_side_dd, beq_side_dc,
      beq_side_cd, beq_side_cc, ratAbs, epsilon])

end Backend
